import Mathlib

/-!
# TimeConverter: a shallow embedding of `src/script.js`

The script keeps six module-level variables (two selected locations, two base
snapshots, the slider offset and the interval handle) and mutates them from DOM
event handlers.  The embedding makes that state explicit (`App`), passes it
through every handler, and returns any exception a handler raises next to the
state it leaves behind (JavaScript does not roll back on `throw`).

Conventions of the embedding.

* A JavaScript `Date` is `Option Int`: the time value in milliseconds since the
  epoch, or `none` for an Invalid Date.  `new Date(v)` clips at
  `±8 640 000 000 000 000` ms as ECMAScript prescribes (`timeClip`).
* A snapshot's `datetime` property is represented by the time value that
  `new Date(datetime)` yields (`none`: property absent or not a date string);
  `toISOString` followed by `new Date` is the identity on valid dates.
* Numbers that the script computes from dates can be `NaN`; such a number is an
  `Option Int` with `none` for `NaN`.  JavaScript numbers are IEEE 754 doubles:
  sums, differences and products of integers are exact as long as the result
  stays below `2 ^ 53` in size, which covers every time value (`8.64e15` is
  less than `2 ^ 53`).  The one division of the script, in `updateSliderInfo`,
  is modelled as the division of doubles (`divideDoubles`), and the text of a
  number from `2 ^ 53` on is left to the platform.
* The platform (time-zone database behind `Intl.DateTimeFormat`, the zone of
  the browser used by `getHours`, and the `timezones` table that lives in a
  data file outside `src/`) is a parameter, `Platform`.
* Only the DOM properties that the script reads back or that encode clock
  state are kept: select values, slider value, digital time parts, offset
  label, day/night class, slider label.  The formatted date string and the
  three hand rotations are write-only presentation and are left out.
* The awaited network requests of a location change are resolved inside the
  handler: `FetchEnv` carries what the two requests and the clock return.
-/

namespace TimeConverter

/-! ## JavaScript values -/

/-- A string-valued JavaScript slot: an absent property, `null`, or a string. -/
inductive JsString where
  | undefined : JsString
  | null : JsString
  | str (s : String) : JsString
deriving DecidableEq

/-- The string a template literal prints for the slot. -/
def JsString.text : JsString → String
  | .undefined => "undefined"
  | .null => "null"
  | .str s => s

/-- Exceptions the script can meet. -/
inductive JsError where
  | typeError : JsError
  | rangeError : JsError
  | syntaxError : JsError
  | error (msg : String) : JsError
deriving DecidableEq

/-- Largest time value of a valid `Date`, in milliseconds. -/
def maxTimeValue : Int := 8640000000000000

/-- ECMAScript `TimeClip`: `new Date(v)` is valid only inside the date range. -/
def timeClip (v : Int) : Option Int :=
  if -maxTimeValue ≤ v ∧ v ≤ maxTimeValue then some v else none

/-- The date `new Date(x.datetime)` of a `datetime` property. -/
def newDate (datetime : Option Int) : Option Int :=
  datetime.bind timeClip

/-! ## Data model -/

/-- One row of the `timezones` table (`tz.name`, `tz.timezone`, `tz.offset`). -/
structure TimezoneDescriptor where
  name : String
  timezone : String
  offset : String
deriving DecidableEq

/-- A base snapshot: the object stored in `baseDateTime1` / `baseDateTime2`.
It is either the parsed body of the time service or a fallback object; every
property can be missing from a body. -/
structure Snapshot where
  datetime : Option Int
  timezone : JsString
  utc_offset : JsString
  utc_timestamp : Option Int
deriving DecidableEq

/-- The object `getAdjustedTime` returns. -/
structure AdjustedTime where
  date : Option Int
  timezone : JsString
  utc_offset : JsString
deriving DecidableEq

/-- The platform the script runs on. -/
structure Platform where
  /-- The `timezones` table. -/
  timezones : List TimezoneDescriptor
  /-- The zone database of `Intl.DateTimeFormat`: the UTC offset in milliseconds
  of a zone at an instant, `none` for an identifier it rejects. -/
  zoneOffset : String → Option (Int → Int)
  /-- UTC offset in milliseconds of the zone of the browser, used by `getHours`. -/
  localOffset : Int → Int
  /-- The text the engine prints for a number from `2 ^ 53` on (shortest digits
  that read back as the same double, exponent form from `1e21` on). -/
  largeNumberToString : Nat → String

/-- Wall-clock fields of a time of day. -/
structure TimeParts where
  hours : Int
  minutes : Int
  seconds : Int
deriving DecidableEq

/-- Wall-clock fields of instant `t` in a zone with offset function `off`. -/
def wallClock (off : Int → Int) (t : Int) : TimeParts :=
  let l := t + off t
  { hours := l / 3600000 % 24, minutes := l / 60000 % 60, seconds := l / 1000 % 60 }

/-- The expression `now.getHours() * 60 + now.getMinutes()`; `NaN` on an invalid date. -/
def minutesFromMidnight (P : Platform) (now : Option Int) : Option Int :=
  now.map fun t => (wallClock P.localOffset t).hours * 60 + (wallClock P.localOffset t).minutes

/-- Minutes from midnight of instant `t` read in zone `off`. -/
def zoneMinutes (off : Int → Int) (t : Int) : Int :=
  (wallClock off t).hours * 60 + (wallClock off t).minutes

/-- The zone `Intl.DateTimeFormat` uses for option `timeZone`. -/
def resolveZone (P : Platform) : JsString → Option (Int → Int)
  | .undefined => some P.localOffset
  | .null => P.zoneOffset "null"
  | .str z => P.zoneOffset z

/-! ## The page -/

/-- The two classes of a day/night indicator. -/
inductive DayNight where
  | day : DayNight
  | night : DayNight
deriving DecidableEq

/-- A `select` element: assigning a value that is no option leaves it empty. -/
structure Select where
  options : List String
  value : String
deriving DecidableEq

/-- The assignment `select.value = v`. -/
def Select.setValue (sel : Select) (v : String) : Select :=
  { sel with value := if v ∈ sel.options then v else "" }

/-- The elements of one clock card. -/
structure ClockView where
  digitalTime : Option TimeParts
  offsetText : String
  dayNight : Option DayNight
deriving DecidableEq

/-- Which of the two clock cards (`locationNum`, `dayNight1` / `dayNight2`). -/
inductive Loc where
  | one : Loc
  | two : Loc
deriving DecidableEq

/-- The part of the document the script works on. -/
structure Dom where
  location1 : Select
  location2 : Select
  location1Name : String
  location2Name : String
  timeDisplayShown : Bool
  sliderShown : Bool
  timeSlider : Option Int
  clock1 : ClockView
  clock2 : ClockView
  timeOffset : String
deriving DecidableEq

/-- The card of a location. -/
def Dom.clock (dom : Dom) : Loc → ClockView
  | .one => dom.clock1
  | .two => dom.clock2

/-- Replace the card of a location. -/
def Dom.setClock (dom : Dom) (l : Loc) (v : ClockView) : Dom :=
  match l with
  | .one => { dom with clock1 := v }
  | .two => { dom with clock2 := v }

/-- The interval timers of the window.  Handles are positive integers and are
never reused. -/
structure Timers where
  active : List Nat
  issued : Nat
deriving DecidableEq

/-- The call `setInterval(callback, 1000)`: a fresh positive handle becomes active. -/
def Timers.setInterval (t : Timers) : Timers × Nat :=
  ({ active := t.active ++ [t.issued + 1], issued := t.issued + 1 }, t.issued + 1)

/-- The call `clearInterval(h)`. -/
def Timers.clearInterval (t : Timers) (h : Nat) : Timers :=
  { t with active := t.active.filter fun k => k ≠ h }

/-- The global state of the script together with the page and its timers. -/
structure App where
  currentLocation1 : JsString
  currentLocation2 : JsString
  baseDateTime1 : Option Snapshot
  baseDateTime2 : Option Snapshot
  sliderOffsetMinutes : Option Int
  updateInterval : Option Nat
  dom : Dom
  timers : Timers
deriving DecidableEq

/-! ## Time source -/

/-- What a request to the time service comes to. -/
inductive FetchOutcome where
  /-- The promise of `fetch` rejects. -/
  | rejected : FetchOutcome
  /-- A response arrived: `response.ok`, and the body when it parses as JSON. -/
  | response (ok : Bool) (body : Option Snapshot) : FetchOutcome
deriving DecidableEq

/-- The outcomes the `catch` of `fetchTimeForZone` sees. -/
def FetchOutcome.failing : FetchOutcome → Bool
  | .rejected => true
  | .response false _ => true
  | .response true none => true
  | .response true (some _) => false

/-- Source: `getTimezoneOffset`. -/
def getTimezoneOffset (P : Platform) (timezone : JsString) : String :=
  match P.timezones.find? fun tz => JsString.str tz.timezone = timezone with
  | some tzInfo => tzInfo.offset
  | none => "+00:00"

/-- Source: `getFallbackTimeForZone`; `now` is the reading of the local clock. -/
def getFallbackTimeForZone (P : Platform) (timezone : JsString) (now : Int) : Snapshot :=
  { datetime := some now
    timezone := timezone
    utc_offset := .str (getTimezoneOffset P timezone)
    utc_timestamp := some now }

/-- The `try` block of `fetchTimeForZone`. -/
def requestTime : FetchOutcome → Except JsError Snapshot
  | .rejected => .error .typeError
  | .response false _ => .error (.error "API request failed")
  | .response true none => .error .syntaxError
  | .response true (some body) => .ok body

/-- Source: `fetchTimeForZone`. -/
def fetchTimeForZone (P : Platform) (timezone : JsString) (outcome : FetchOutcome)
    (now : Int) : Except JsError Snapshot :=
  match requestTime outcome with
  | .ok body => .ok body
  | .error _ => .ok (getFallbackTimeForZone P timezone now)

/-! ## Display -/

/-- Source: `getAdjustedTime`. -/
def getAdjustedTime (baseTime : Snapshot) (offsetMinutes : Option Int) : AdjustedTime :=
  let baseDate := newDate baseTime.datetime
  let adjustedDate : Option Int :=
    match baseDate, offsetMinutes with
    | some t, some k => timeClip (t + k * 60 * 1000)
    | _, _ => none
  { date := adjustedDate, timezone := baseTime.timezone, utc_offset := baseTime.utc_offset }

/-- Source: `updateTimeDisplay`.  Both formatters are built and the parts are
taken before anything is written, so a `RangeError` leaves the card as it was.
The hour is the one of a 24-hour clock, 0 to 23. -/
def updateTimeDisplay (P : Platform) (timeData : AdjustedTime) (locationNum : Loc)
    (dom : Dom) : Except JsError (Dom × Int) :=
  match resolveZone P timeData.timezone with
  | none => .error .rangeError
  | some off =>
    match timeData.date with
    | none => .error .rangeError
    | some t =>
      let parts := wallClock off t
      let card := dom.clock locationNum
      .ok (dom.setClock locationNum
            { card with digitalTime := some parts
                        offsetText := "UTC " ++ timeData.utc_offset.text },
           parts.hours)

/-- Source: `updateDayNightIndicatorWithHour`. -/
def updateDayNightIndicatorWithHour (hour : Int) (elementId : Loc) (dom : Dom) : Dom :=
  let indicator := dom.clock elementId
  if hour ≥ 6 ∧ hour < 18 then
    dom.setClock elementId { indicator with dayNight := some .day }
  else
    dom.setClock elementId { indicator with dayNight := some .night }

/-- The integer nearest to `a / b`, the even one when two are equally near. -/
def roundHalfEven (a b : Nat) : Nat :=
  if 2 * (a % b) < b then a / b
  else if b < 2 * (a % b) then a / b + 1
  else if a / b % 2 = 0 then a / b
  else a / b + 1

/-- A positive JavaScript number (an IEEE 754 double in the normal range): a
mantissa of 53 bits, divided or multiplied by a power of two. -/
inductive JsDouble where
  /-- The number `mantissa / 2 ^ k`. -/
  | fine (mantissa k : Nat) : JsDouble
  /-- The number `mantissa * 2 ^ k`. -/
  | coarse (mantissa k : Nat) : JsDouble
deriving DecidableEq

/-- The quotient `n / d` of two positive integers held in doubles: the double
nearest to the exact quotient, ties to even.  With `e` the binary exponent of
the quotient, the mantissa is the quotient scaled by `2 ^ (52 - e)`, rounded. -/
def divideDoubles (n d : Nat) : JsDouble :=
  if d ≤ n then
    let e := Nat.log2 (n / d)
    if e ≤ 52 then .fine (roundHalfEven (n * 2 ^ (52 - e)) d) (52 - e)
    else .coarse (roundHalfEven n (d * 2 ^ (e - 52))) (e - 52)
  else
    let e := Nat.clog 2 ((d + n - 1) / n)
    .fine (roundHalfEven (n * 2 ^ (52 + e)) d) (52 + e)

/-- `Math.floor` of a positive double. -/
def JsDouble.floor : JsDouble → Nat
  | .fine mantissa k => mantissa / 2 ^ k
  | .coarse mantissa k => mantissa * 2 ^ k

/-- The text of a number that is a natural, as a template literal prints it:
decimal digits for the integers below `2 ^ 53`, what the engine prints for the
larger ones. -/
def numberToString (P : Platform) (v : Nat) : String :=
  if v < 2 ^ 53 then toString v else P.largeNumberToString v

/-- The text `updateSliderInfo` computes.  `offsetMinutes` is the integer the
number holds; `Math.abs` and `%` are exact on doubles, `/` rounds. -/
def sliderInfoText (P : Platform) : Option Int → String
  | none => "-" ++ " from now"
  | some offsetMinutes =>
    if offsetMinutes = 0 then "Current time"
    else
      let hours := (divideDoubles offsetMinutes.natAbs 60).floor
      let mins := offsetMinutes.natAbs % 60
      let sign := if offsetMinutes > 0 then "+" else "-"
      let text := sign
      let text := if hours > 0 then text ++ (numberToString P hours ++ "h ") else text
      let text := if mins > 0 ∨ hours = 0 then text ++ (numberToString P mins ++ "m") else text
      text ++ " from now"

/-- Source: `updateSliderInfo`. -/
def updateSliderInfo (P : Platform) (offsetMinutes : Option Int) (dom : Dom) : Dom :=
  { dom with timeOffset := sliderInfoText P offsetMinutes }

/-- Source: `updateDisplay`. -/
def updateDisplay (P : Platform) (s : App) : App × Option JsError :=
  match s.baseDateTime1, s.baseDateTime2 with
  | some b1, some b2 =>
    let adjustedTime1 := getAdjustedTime b1 s.sliderOffsetMinutes
    let adjustedTime2 := getAdjustedTime b2 s.sliderOffsetMinutes
    match updateTimeDisplay P adjustedTime1 .one s.dom with
    | .error e => (s, some e)
    | .ok (dom1, hour1) =>
      match updateTimeDisplay P adjustedTime2 .two dom1 with
      | .error e => ({ s with dom := dom1 }, some e)
      | .ok (dom2, hour2) =>
        let dom3 := updateDayNightIndicatorWithHour hour1 .one dom2
        let dom4 := updateDayNightIndicatorWithHour hour2 .two dom3
        ({ s with dom := updateSliderInfo P s.sliderOffsetMinutes dom4 }, none)
  | _, _ => (s, none)

/-! ## Handlers -/

/-- Source: `useFallbackTime`; the two clock readings are taken one after the other. -/
def useFallbackTime (P : Platform) (now1 now2 : Int) (s : App) : App × Option JsError :=
  updateDisplay P
    { s with baseDateTime1 := some (getFallbackTimeForZone P s.currentLocation1 now1)
             baseDateTime2 := some (getFallbackTimeForZone P s.currentLocation2 now2) }

/-- What the environment supplies to one run of `fetchAndUpdateTimes`. -/
structure FetchEnv where
  outcome1 : FetchOutcome
  outcome2 : FetchOutcome
  /-- Clock readings inside the two `fetchTimeForZone` calls. -/
  clock1 : Int
  clock2 : Int
  /-- Clock readings inside `useFallbackTime`. -/
  fallbackClock1 : Int
  fallbackClock2 : Int
deriving DecidableEq

/-- Source: `fetchAndUpdateTimes`. -/
def fetchAndUpdateTimes (P : Platform) (env : FetchEnv) (s : App) : App × Option JsError :=
  match fetchTimeForZone P s.currentLocation1 env.outcome1 env.clock1,
        fetchTimeForZone P s.currentLocation2 env.outcome2 env.clock2 with
  | .ok time1, .ok time2 =>
    let s1 := { s with baseDateTime1 := some time1, baseDateTime2 := some time2 }
    let s2 := { s1 with sliderOffsetMinutes := some 0 }
    let now := newDate time1.datetime
    let minutes := minutesFromMidnight P now
    let s3 := { s2 with dom := { s2.dom with timeSlider := minutes } }
    match updateDisplay P s3 with
    | (s4, none) => (s4, none)
    | (s4, some _) => useFallbackTime P env.fallbackClock1 env.fallbackClock2 s4
  | _, _ => useFallbackTime P env.fallbackClock1 env.fallbackClock2 s

/-- Source: `startLiveUpdates` (the timer side; the callback is `liveUpdate`). -/
def startLiveUpdates (s : App) : App :=
  let timers :=
    match s.updateInterval with
    | some h => if h ≠ 0 then s.timers.clearInterval h else s.timers
    | none => s.timers
  { s with timers := timers.setInterval.1, updateInterval := some timers.setInterval.2 }

/-- The callback `startLiveUpdates` hands to `setInterval`: one tick. -/
def liveUpdate (P : Platform) (s : App) : App × Option JsError :=
  match s.baseDateTime1, s.baseDateTime2 with
  | some b1, some b2 =>
    match (newDate b1.datetime).bind fun t => timeClip (t + 1000) with
    | none => (s, some .rangeError)
    | some t1 =>
      let s1 := { s with baseDateTime1 := some { b1 with datetime := some t1 } }
      match (newDate b2.datetime).bind fun t => timeClip (t + 1000) with
      | none => (s1, some .rangeError)
      | some t2 =>
        let s2 := { s1 with baseDateTime2 := some { b2 with datetime := some t2 } }
        let s3 :=
          if s2.sliderOffsetMinutes = some 0 then
            { s2 with dom := { s2.dom with timeSlider := minutesFromMidnight P (newDate (some t1)) } }
          else s2
        updateDisplay P s3
  | _, _ => (s, none)

/-- Source: `handleLocationChange`, with the awaited fetches resolved by `env`. -/
def handleLocationChange (P : Platform) (env : FetchEnv) (s : App) : App × Option JsError :=
  let location1 := s.dom.location1.value
  let location2 := s.dom.location2.value
  if location1 ≠ "" ∧ location2 ≠ "" then
    let s1 := { s with currentLocation1 := .str location1, currentLocation2 := .str location2 }
    let s2 := { s1 with dom := { s1.dom with timeDisplayShown := true, sliderShown := true } }
    let loc1Info := P.timezones.find? fun tz => tz.timezone = location1
    let loc2Info := P.timezones.find? fun tz => tz.timezone = location2
    match loc1Info with
    | none => (s2, some .typeError)
    | some info1 =>
      let s3 := { s2 with dom := { s2.dom with location1Name := info1.name } }
      match loc2Info with
      | none => (s3, some .typeError)
      | some info2 =>
        let s4 := { s3 with dom := { s3.dom with location2Name := info2.name } }
        match fetchAndUpdateTimes P env s4 with
        | (s5, some e) => (s5, some e)
        | (s5, none) => (startLiveUpdates s5, none)
  else (s, none)

/-- Source: `handleSliderChange`; `sliderValue` is `parseInt(e.target.value)`,
the position the user moved the slider to. -/
def handleSliderChange (P : Platform) (sliderValue : Int) (s : App) : App × Option JsError :=
  let s0 := { s with dom := { s.dom with timeSlider := some sliderValue } }
  match s0.baseDateTime1 with
  | none => (s0, some .typeError)
  | some b1 =>
    let now := newDate b1.datetime
    let currentMinutes := minutesFromMidnight P now
    updateDisplay P { s0 with sliderOffsetMinutes := currentMinutes.map fun c => sliderValue - c }

/-- Source: `resetToCurrentTime`. -/
def resetToCurrentTime (P : Platform) (env : FetchEnv) (s : App) : App × Option JsError :=
  fetchAndUpdateTimes P env s

/-- Source: `swapLocations`. -/
def swapLocations (P : Platform) (env : FetchEnv) (s : App) : App × Option JsError :=
  let temp := s.dom.location1.value
  let dom1 := { s.dom with location1 := s.dom.location1.setValue s.dom.location2.value }
  let dom2 := { dom1 with location2 := dom1.location2.setValue temp }
  handleLocationChange P env { s with dom := dom2 }

/-- The state when the script has just been loaded into page `dom`: the
initial values of the six globals, and no interval running. -/
def initialApp (dom : Dom) : App :=
  { currentLocation1 := .null
    currentLocation2 := .null
    baseDateTime1 := none
    baseDateTime2 := none
    sliderOffsetMinutes := some 0
    updateInterval := none
    dom := dom
    timers := { active := [], issued := 0 } }

/-! ## Reading a slider label back -/

/-- The slider label computed with exact integer division and decimal numerals.
It is what `sliderInfoText` yields for the offsets below `2 ^ 53` in size
(`sliderInfoText_safe`). -/
def exactLabel : Option Int → String
  | none => "-" ++ " from now"
  | some offsetMinutes =>
    if offsetMinutes = 0 then "Current time"
    else
      let hours := offsetMinutes.natAbs / 60
      let mins := offsetMinutes.natAbs % 60
      let sign := if offsetMinutes > 0 then "+" else "-"
      let text := sign
      let text := if hours > 0 then text ++ (toString hours ++ "h ") else text
      let text := if mins > 0 ∨ hours = 0 then text ++ (toString mins ++ "m") else text
      text ++ " from now"

/-- Value of a list of decimal digit characters. -/
def digitsValue (l : List Char) : Nat :=
  l.foldl (fun a c => 10 * a + (c.toNat - 48)) 0

/-- Reads an offset back from the characters of a slider label: the sign, the
digits before `h` or `m`, and the digits after `h `.  Used to show that the
label determines the offset. -/
def decodeChars : List Char → Int
  | [] => 0
  | sgn :: rest =>
    if sgn = 'C' then 0
    else
      let sign : Int := if sgn = '+' then 1 else -1
      match rest.dropWhile Char.isDigit with
      | [] => 0
      | c :: r1 =>
        if c = 'm' then sign * digitsValue (rest.takeWhile Char.isDigit)
        else
          match r1 with
          | [] => 0
          | _ :: r2 =>
            sign * (60 * digitsValue (rest.takeWhile Char.isDigit)
                      + digitsValue (r2.takeWhile Char.isDigit))

/-! ## Frames, events and the ticker invariant -/

/-- What `updateDisplay` leaves alone: everything but the two cards and the slider label. -/
def SameButCards (s r : App) : Prop :=
  r.currentLocation1 = s.currentLocation1 ∧ r.currentLocation2 = s.currentLocation2 ∧
  r.baseDateTime1 = s.baseDateTime1 ∧ r.baseDateTime2 = s.baseDateTime2 ∧
  r.sliderOffsetMinutes = s.sliderOffsetMinutes ∧ r.updateInterval = s.updateInterval ∧
  r.timers = s.timers ∧ r.dom.location1 = s.dom.location1 ∧ r.dom.location2 = s.dom.location2 ∧
  r.dom.timeSlider = s.dom.timeSlider

/-- What the fetch, slider and tick handlers leave alone. -/
def SameControls (s r : App) : Prop :=
  r.currentLocation1 = s.currentLocation1 ∧ r.currentLocation2 = s.currentLocation2 ∧
  r.updateInterval = s.updateInterval ∧ r.timers = s.timers ∧
  r.dom.location1 = s.dom.location1 ∧ r.dom.location2 = s.dom.location2

/-- N ticks of the live-update callback, nothing else happening in between. -/
def liveTicks (P : Platform) : Nat → App → App
  | 0, s => s
  | n + 1, s => liveTicks P n (liveUpdate P s).1

/-- What can happen to the page. -/
inductive Event where
  /-- A picker takes a new value. -/
  | setLocation1 (value : String) : Event
  | setLocation2 (value : String) : Event
  /-- The `change` listener runs (also the initial load). -/
  | locationChange (env : FetchEnv) : Event
  | swap (env : FetchEnv) : Event
  | slider (sliderValue : Int) : Event
  | reset (env : FetchEnv) : Event
  /-- One second of real time passes: every live interval fires once. -/
  | second : Event

/-- One second of real time: the callback runs once for each live interval. -/
def realSecond (P : Platform) (s : App) : App :=
  s.timers.active.foldl (fun acc _ => (liveUpdate P acc).1) s

/-- The state after an event; an exception ends the handler and is dropped. -/
def step (P : Platform) (s : App) : Event → App
  | .setLocation1 v => { s with dom := { s.dom with location1 := s.dom.location1.setValue v } }
  | .setLocation2 v => { s with dom := { s.dom with location2 := s.dom.location2.setValue v } }
  | .locationChange env => (handleLocationChange P env s).1
  | .swap env => (swapLocations P env s).1
  | .slider m => (handleSliderChange P m s).1
  | .reset env => (resetToCurrentTime P env s).1
  | .second => realSecond P s

/-- The state after a sequence of events. -/
def run (P : Platform) (events : List Event) (s : App) : App :=
  events.foldl (step P) s

/-- The single-ticker invariant: the live intervals are exactly the one whose
handle `updateInterval` holds, and that handle is a positive one already issued. -/
def SingleTicker (s : App) : Prop :=
  match s.updateInterval with
  | none => s.timers.active = []
  | some h => 0 < h ∧ h ≤ s.timers.issued ∧ s.timers.active = [h]

instance (s : App) : Decidable (SingleTicker s) := by
  unfold SingleTicker
  split <;> infer_instance

/-- A snapshot that held a valid time `a` before holds `a` or `a + 1000` after:
its time moved by nothing or by one second. -/
def AtMostOneSecond (before after : Option Snapshot) : Prop :=
  match before.bind fun A => newDate A.datetime with
  | none => True
  | some a =>
    (after.bind fun A2 => newDate A2.datetime) = some a ∨
    (after.bind fun A2 => newDate A2.datetime) = some (a + 1000)

instance (before after : Option Snapshot) : Decidable (AtMostOneSecond before after) := by
  unfold AtMostOneSecond
  split <;> infer_instance

instance (s r : App) : Decidable (SameButCards s r) := by
  unfold SameButCards
  infer_instance

instance (s r : App) : Decidable (SameControls s r) := by
  unfold SameControls
  infer_instance

/-! ## Sample data -/

/-- A page whose two pickers offer `options` and show nothing yet. -/
def blankPage (options : List String) : Dom :=
  { location1 := { options := options, value := "" }
    location2 := { options := options, value := "" }
    location1Name := ""
    location2Name := ""
    timeDisplayShown := false
    sliderShown := false
    timeSlider := none
    clock1 := { digitalTime := none, offsetText := "", dayNight := none }
    clock2 := { digitalTime := none, offsetText := "", dayNight := none }
    timeOffset := "" }

/-- A two-row catalog. -/
def sampleTimezones : List TimezoneDescriptor :=
  [ { name := "India (Kolkata)", timezone := "Asia/Kolkata", offset := "+05:30" },
    { name := "USA (New York)", timezone := "America/New_York", offset := "-05:00" } ]

/-- A platform whose browser runs in UTC and whose zone database knows the two
sample zones at fixed offsets. -/
def samplePlatform : Platform :=
  { timezones := sampleTimezones
    zoneOffset := fun z =>
      if z = "Asia/Kolkata" then some fun _ => 19800000
      else if z = "America/New_York" then some fun _ => -18000000
      else none
    localOffset := fun _ => 0
    largeNumberToString := fun v => toString v }

/-- A snapshot of Kolkata at the epoch. -/
def sampleSnapshot : Snapshot :=
  { datetime := some 0, timezone := .str "Asia/Kolkata", utc_offset := .str "+05:30",
    utc_timestamp := none }

/-- A snapshot of Kolkata at the last instant a `Date` can hold. -/
def lastSnapshot : Snapshot :=
  { datetime := some 8640000000000000, timezone := .str "Asia/Kolkata",
    utc_offset := .str "+05:30", utc_timestamp := none }

/-- A body that parses as JSON but has neither `datetime` nor `utc_offset`. -/
def bareBody : Snapshot :=
  { datetime := none, timezone := .str "Asia/Kolkata", utc_offset := .undefined,
    utc_timestamp := none }

/-- A snapshot of New York at the epoch. -/
def newYorkSnapshot : Snapshot :=
  { datetime := some 0, timezone := .str "America/New_York", utc_offset := .str "-05:00",
    utc_timestamp := none }

/-- Kolkata and New York are the current locations; nothing fetched yet. -/
def sampleApp : App :=
  { initialApp (blankPage ["Asia/Kolkata", "America/New_York"]) with
    currentLocation1 := .str "Asia/Kolkata"
    currentLocation2 := .str "America/New_York" }

/-- The request for location 1 is rejected, the one for location 2 succeeds. -/
def oneFailingEnv : FetchEnv :=
  { outcome1 := .rejected
    outcome2 := .response true (some newYorkSnapshot)
    clock1 := 1000, clock2 := 1000, fallbackClock1 := 1000, fallbackClock2 := 1000 }

/-- Both requests succeed and report the epoch. -/
def sampleEnv : FetchEnv :=
  { outcome1 := .response true (some sampleSnapshot)
    outcome2 := .response true (some newYorkSnapshot)
    clock1 := 0, clock2 := 0, fallbackClock1 := 0, fallbackClock2 := 0 }

/-- Location 1 holds a snapshot at the last instant a `Date` can hold. -/
def lastInstantApp : App :=
  { sampleApp with baseDateTime1 := some lastSnapshot, baseDateTime2 := some newYorkSnapshot }

/-- Kolkata and New York are selected in the two pickers. -/
def pickedApp : App :=
  { sampleApp with
    dom := { sampleApp.dom with
      location1 := { sampleApp.dom.location1 with value := "Asia/Kolkata" }
      location2 := { sampleApp.dom.location2 with value := "America/New_York" } } }

/-- Both snapshots are present and stand at the epoch. -/
def tickingApp : App :=
  { sampleApp with baseDateTime1 := some sampleSnapshot, baseDateTime2 := some newYorkSnapshot }

/-- A run of slider moves. -/
def scrub (P : Platform) (moves : List Int) (s : App) : App :=
  moves.foldl (fun acc m => (handleSliderChange P m acc).1) s

/-! # Theorems -/

/-! ## Decimal numerals -/

theorem digitChar_isDigit (d : Nat) (h : d < 10) : (Nat.digitChar d).isDigit = true := by
  interval_cases d <;> decide

theorem digitChar_value (d : Nat) (h : d < 10) : (Nat.digitChar d).toNat - 48 = d := by
  interval_cases d <;> decide

theorem toDigitsCore_acc (fuel : Nat) : ∀ (n : Nat) (ds : List Char),
    Nat.toDigitsCore 10 fuel n ds = Nat.toDigitsCore 10 fuel n [] ++ ds := by
  induction fuel with
  | zero => intro n ds; simp [Nat.toDigitsCore]
  | succ f ih =>
    intro n ds
    simp only [Nat.toDigitsCore]
    split
    · simp
    · rw [ih (n / 10) (_ :: ds), ih (n / 10) [_]]; simp

theorem toDigitsCore_spec (fuel : Nat) : ∀ (n : Nat), n < fuel →
    digitsValue (Nat.toDigitsCore 10 fuel n []) = n ∧
    ∀ c ∈ Nat.toDigitsCore 10 fuel n [], c.isDigit = true := by
  induction fuel with
  | zero => intro n h; omega
  | succ f ih =>
    intro n h
    simp only [Nat.toDigitsCore]
    have hd : n % 10 < 10 := Nat.mod_lt _ (by decide)
    split
    · rename_i h0
      refine ⟨?_, ?_⟩
      · simp [digitsValue, digitChar_value _ hd]; omega
      · intro c hc; simp at hc; subst hc; exact digitChar_isDigit _ hd
    · rename_i h0
      have hlt : n / 10 < f := by omega
      obtain ⟨h1, h2⟩ := ih (n / 10) hlt
      rw [toDigitsCore_acc]
      refine ⟨?_, ?_⟩
      · unfold digitsValue at h1 ⊢
        rw [List.foldl_append, h1]; simp [digitChar_value _ hd]; omega
      · intro c hc
        rcases List.mem_append.1 hc with hc | hc
        · exact h2 c hc
        · simp at hc; subst hc; exact digitChar_isDigit _ hd

theorem repr_value (n : Nat) : digitsValue (toString n).data = n := by
  show digitsValue (Nat.toDigits 10 n) = n
  exact (toDigitsCore_spec (n + 1) n (Nat.lt_succ_self n)).1

theorem repr_isDigit (n : Nat) : ∀ c ∈ (toString n).data, c.isDigit = true := by
  show ∀ c ∈ Nat.toDigits 10 n, c.isDigit = true
  exact (toDigitsCore_spec (n + 1) n (Nat.lt_succ_self n)).2

theorem span_digits (ds rest : List Char) (c : Char) (hds : ∀ x ∈ ds, x.isDigit = true)
    (hc : c.isDigit = false) :
    (ds ++ c :: rest).takeWhile Char.isDigit = ds ∧
    (ds ++ c :: rest).dropWhile Char.isDigit = c :: rest := by
  induction ds with
  | nil => simp [List.takeWhile, List.dropWhile, hc]
  | cons d ds ih =>
    have hd : d.isDigit = true := hds d (List.mem_cons_self _ _)
    have := ih (fun x hx => hds x (List.mem_cons_of_mem _ hx))
    simp [List.takeWhile, List.dropWhile, hd, this]

/-! ## The slider label -/

theorem decodeChars_minutes (sgn : Char) (M t : List Char) (hs : sgn ≠ 'C')
    (hM : ∀ x ∈ M, x.isDigit = true) :
    decodeChars (sgn :: (M ++ 'm' :: t)) = (if sgn = '+' then 1 else -1) * (digitsValue M : Int) := by
  have e := span_digits M t 'm' hM (by decide)
  simp [decodeChars, hs, e.1, e.2]

theorem decodeChars_hours (sgn c : Char) (H r2 : List Char) (hs : sgn ≠ 'C')
    (hH : ∀ x ∈ H, x.isDigit = true) :
    decodeChars (sgn :: (H ++ 'h' :: c :: r2)) =
      (if sgn = '+' then 1 else -1) *
        (60 * (digitsValue H : Int) + (digitsValue (r2.takeWhile Char.isDigit) : Int)) := by
  have e := span_digits H (c :: r2) 'h' hH (by decide)
  simp [decodeChars, hs, e.1, e.2]

theorem exactLabel_data (n : Nat) (k : Int) (hn : 0 < n) (hk : k = n ∨ k = -n) :
    (exactLabel (some k)).data =
      (if 0 < k then '+' else '-') ::
        (if n / 60 = 0 then (toString (n % 60)).data ++ 'm' :: " from now".data
         else if n % 60 = 0 then (toString (n / 60)).data ++ 'h' :: Char.ofNat 32 :: " from now".data
         else (toString (n / 60)).data ++
                'h' :: Char.ofNat 32 :: ((toString (n % 60)).data ++ 'm' :: " from now".data)) := by
  have hk0 : k ≠ 0 := by omega
  have hab : k.natAbs = n := by omega
  unfold exactLabel
  simp only [hk0, if_false, hab]
  by_cases hs : 0 < k <;> by_cases h1 : n / 60 = 0 <;> by_cases h2 : n % 60 = 0 <;>
    simp [hs, h1, h2, String.data_append, Nat.pos_iff_ne_zero]

theorem decode_exactLabel (k : Int) :
    decodeChars (exactLabel (some k)).data = k := by
  by_cases hk0 : k = 0
  · subst hk0; decide
  · obtain ⟨n, hn, hk⟩ : ∃ n : Nat, 0 < n ∧ (k = n ∨ k = -n) := by
      refine ⟨k.natAbs, by omega, by omega⟩
    have hsg : (if 0 < k then '+' else '-') ≠ 'C' := by split <;> decide
    have hsv : (if (if 0 < k then '+' else '-') = '+' then (1 : Int) else -1)
        = if 0 < k then 1 else -1 := by split <;> simp
    rw [exactLabel_data n k hn hk]
    by_cases h1 : n / 60 = 0
    · rw [if_pos h1, decodeChars_minutes _ _ _ hsg (repr_isDigit _), repr_value, hsv]
      split <;> omega
    · by_cases h2 : n % 60 = 0
      · rw [if_neg h1, if_pos h2, decodeChars_hours _ _ _ _ hsg (repr_isDigit _), repr_value, hsv]
        have : List.takeWhile Char.isDigit (" from now".data) = [] := by decide
        rw [this]
        simp only [digitsValue, List.foldl]
        split <;> omega
      · rw [if_neg h1, if_neg h2, decodeChars_hours _ _ _ _ hsg (repr_isDigit _), repr_value, hsv,
          (span_digits _ _ 'm' (repr_isDigit _) (by decide)).1, repr_value]
        split <;> omega

theorem exactLabel_injective (k k2 : Int)
    (h : exactLabel (some k) = exactLabel (some k2)) : k = k2 := by
  rw [← decode_exactLabel k, ← decode_exactLabel k2, h]

theorem exactLabel_current (k : Int) : exactLabel (some k) = "Current time" ↔ k = 0 := by
  constructor
  · intro h
    have h0 : exactLabel (some 0) = "Current time" := by decide
    exact exactLabel_injective k 0 (h.trans h0.symm)
  · intro h; subst h; decide

/-! ## Division of doubles -/

theorem roundHalfEven_near (a b : Nat) (hb : 0 < b) :
    2 * a ≤ 2 * b * roundHalfEven a b + b ∧ 2 * b * roundHalfEven a b ≤ 2 * a + b := by
  have h1 := Nat.div_add_mod a b
  have h2 := Nat.mod_lt a hb
  unfold roundHalfEven
  generalize a / b = q at *
  generalize a % b = r at *
  have e1 : 2 * b * q = 2 * (b * q) := by ring
  have e2 : 2 * b * (q + 1) = 2 * (b * q) + 2 * b := by ring
  generalize hp : b * q = p at *
  split
  · rw [e1]; omega
  · split
    · rw [e2]; omega
    · split
      · rw [e1]; omega
      · rw [e2]; omega

theorem floor_fine (n k : Nat) (hk : 5 ≤ k) :
    (JsDouble.fine (roundHalfEven (n * 2 ^ k) 60) k).floor = n / 60 := by
  show roundHalfEven (n * 2 ^ k) 60 / 2 ^ k = n / 60
  have hS : 32 ≤ 2 ^ k := by
    calc 32 = 2 ^ 5 := by norm_num
      _ ≤ 2 ^ k := Nat.pow_le_pow_right (by norm_num) hk
  generalize 2 ^ k = S at *
  obtain ⟨lo, hi⟩ := roundHalfEven_near (n * S) 60 (by norm_num)
  generalize roundHalfEven (n * S) 60 = M at *
  have h1 := Nat.div_add_mod n 60
  have h2 := Nat.mod_lt n (show 0 < 60 by norm_num)
  generalize hq : n / 60 = q at *
  generalize hr : n % 60 = r at *
  have hnS : n * S = 60 * (q * S) + r * S := by rw [← h1]; ring
  have hrS : r * S ≤ 59 * S := Nat.mul_le_mul_right S (by omega)
  apply Nat.div_eq_of_lt_le
  · generalize q * S = X at *
    generalize r * S = Y at *
    omega
  · have : (q + 1) * S = q * S + S := by ring
    rw [this]
    generalize q * S = X at *
    generalize r * S = Y at *
    omega

/-- Below `2 ^ 53` the rounded quotient never reaches the next integer:
`Math.floor(n / 60)` is the integer quotient. -/
theorem floor_divideDoubles (n : Nat) (hn : n < 2 ^ 53) :
    (divideDoubles n 60).floor = n / 60 := by
  unfold divideDoubles
  by_cases h60 : 60 ≤ n
  · have hq : n / 60 ≠ 0 := by omega
    have hlt : Nat.log2 (n / 60) < 48 := by
      rw [Nat.log2_lt hq]
      apply Nat.div_lt_of_lt_mul
      calc n < 2 ^ 53 := hn
        _ ≤ 60 * 2 ^ 48 := by norm_num
    rw [if_pos h60]
    dsimp only
    rw [if_pos (by omega)]
    exact floor_fine n _ (by omega)
  · rw [if_neg h60]
    exact floor_fine n _ (by omega)

theorem log2_sample : Nat.log2 1200959900632134 = 50 := by
  have h1 : Nat.log2 1200959900632134 < 51 := (Nat.log2_lt (by norm_num)).2 (by norm_num)
  have h2 : 50 ≤ Nat.log2 1200959900632134 := (Nat.le_log2 (by norm_num)).2 (by norm_num)
  omega

/-- At `2 ^ 56 + 160` the exact quotient ends in `.9333`; doubles of that size
are a quarter apart, and the nearest one is the next integer. -/
theorem floor_divideDoubles_sample :
    (divideDoubles 72057594037928096 60).floor = 1200959900632135 := by
  have e : (72057594037928096 : Nat) / 60 = 1200959900632134 := by norm_num
  unfold divideDoubles
  rw [if_pos (by norm_num), e]
  dsimp only
  rw [log2_sample, if_pos (by norm_num)]
  decide

theorem sliderInfoText_safe (P : Platform) (k : Int) (hk : k.natAbs < 2 ^ 53) :
    sliderInfoText P (some k) = exactLabel (some k) := by
  have hh : k.natAbs / 60 < 2 ^ 53 := lt_of_le_of_lt (Nat.div_le_self _ _) hk
  have hm : k.natAbs % 60 < 2 ^ 53 := lt_of_le_of_lt (Nat.mod_le _ _) hk
  simp only [sliderInfoText, exactLabel, floor_divideDoubles _ hk, numberToString, hh, hm,
    if_true]

theorem sliderInfoText_current (P : Platform) (k : Int) :
    sliderInfoText P (some k) = "Current time" ↔ k = 0 := by
  constructor
  · intro h
    by_contra hk
    have hd := congrArg String.data h
    revert hd
    simp only [sliderInfoText, hk, if_false]
    by_cases hs : k > 0 <;>
      by_cases h1 : (divideDoubles k.natAbs 60).floor > 0 <;>
      by_cases h2 : k.natAbs % 60 > 0 ∨ (divideDoubles k.natAbs 60).floor = 0 <;>
      simp [hs, h1, h2, String.data_append]
  · intro h
    subst h
    rfl

/-- C10 (as amended): `updateSliderInfo` writes `Current time` exactly when the
offset is 0, for every integer offset.  For every offset other than 0 and below
`2 ^ 53` in size (the range in which a JavaScript number holds every integer)
it writes the sign (`+` when positive, `-` when negative), then `<h>h ` when
h = floor(|offset| / 60) is positive, then `<m>m` when m = |offset| mod 60 is
positive or h is 0, then ` from now`; here m < 60 and 60 * h + m = |offset|,
at least one of the two parts is shown, and two different offsets of that range
never get the same label. -/
theorem updateSliderInfo_label (P : Platform) (offsetMinutes : Int) (dom : Dom) :
    ((updateSliderInfo P (some offsetMinutes) dom).timeOffset = "Current time"
        ↔ offsetMinutes = 0) ∧
    (offsetMinutes.natAbs < 2 ^ 53 →
      (offsetMinutes = 0 ∨
        ((updateSliderInfo P (some offsetMinutes) dom).timeOffset =
            ((if offsetMinutes > 0 then "+" else "-")
              ++ (if offsetMinutes.natAbs / 60 > 0
                  then toString (offsetMinutes.natAbs / 60) ++ "h " else "")
              ++ (if offsetMinutes.natAbs % 60 > 0 ∨ offsetMinutes.natAbs / 60 = 0
                  then toString (offsetMinutes.natAbs % 60) ++ "m" else ""))
              ++ " from now" ∧
          offsetMinutes.natAbs % 60 < 60 ∧
          60 * (offsetMinutes.natAbs / 60) + offsetMinutes.natAbs % 60 = offsetMinutes.natAbs ∧
          (offsetMinutes.natAbs / 60 > 0 ∨
            (offsetMinutes.natAbs % 60 > 0 ∨ offsetMinutes.natAbs / 60 = 0)))) ∧
      (∀ (other : Int) (dom2 : Dom), other.natAbs < 2 ^ 53 →
        (updateSliderInfo P (some offsetMinutes) dom).timeOffset =
          (updateSliderInfo P (some other) dom2).timeOffset → offsetMinutes = other)) := by
  refine ⟨sliderInfoText_current P offsetMinutes, ?_⟩
  intro hsafe
  refine ⟨?_, ?_⟩
  · by_cases h0 : offsetMinutes = 0
    · exact Or.inl h0
    · refine Or.inr ⟨?_, by omega, by omega, by omega⟩
      show sliderInfoText P (some offsetMinutes) = _
      rw [sliderInfoText_safe P offsetMinutes hsafe]
      unfold exactLabel
      simp only [h0, if_false]
      by_cases h1 : offsetMinutes.natAbs / 60 > 0 <;>
        by_cases h2 : offsetMinutes.natAbs % 60 > 0 ∨ offsetMinutes.natAbs / 60 = 0 <;>
        simp [h1, h2, String.append_assoc]
  · intro other dom2 hother h
    have h2 : sliderInfoText P (some offsetMinutes) = sliderInfoText P (some other) := h
    rw [sliderInfoText_safe P offsetMinutes hsafe, sliderInfoText_safe P other hother] at h2
    exact exactLabel_injective offsetMinutes other h2

/-- Witness for C10 at an offset of minus ninety minutes. -/
theorem updateSliderInfo_label_witness :
    (updateSliderInfo samplePlatform (some (-90)) (blankPage [])).timeOffset
      = "-1h 30m from now" ∧
    ∀ (other : Int) (dom2 : Dom), other.natAbs < 2 ^ 53 →
      (updateSliderInfo samplePlatform (some (-90)) (blankPage [])).timeOffset =
        (updateSliderInfo samplePlatform (some other) dom2).timeOffset → -90 = other :=
  ⟨((updateSliderInfo_label samplePlatform (-90) (blankPage [])).2 (by decide)).1.elim
      (fun h => absurd h (by decide)) (fun h => h.1.trans (by decide)),
   ((updateSliderInfo_label samplePlatform (-90) (blankPage [])).2 (by decide)).2⟩

/-- C10 fails as stated: the offset `2 ^ 56 + 160 = 72057594037928096` is an
integer a JavaScript number holds.  floor(|offset| / 60) is 1200959900632134
and |offset| mod 60 is 56, but the division of doubles rounds up and the label
shows 1200959900632135 hours, with 60 * h + m different from |offset|. -/
theorem updateSliderInfo_label_beyond_safe :
    (updateSliderInfo samplePlatform (some 72057594037928096) (blankPage [])).timeOffset
      = "+1200959900632135h 56m from now" ∧
    (72057594037928096 : Int).natAbs / 60 = 1200959900632134 ∧
    (72057594037928096 : Int).natAbs % 60 = 56 ∧
    (updateSliderInfo samplePlatform (some 72057594037928096) (blankPage [])).timeOffset
      ≠ "+" ++ (toString ((72057594037928096 : Int).natAbs / 60) ++ "h ")
          ++ (toString ((72057594037928096 : Int).natAbs % 60) ++ "m") ++ " from now" ∧
    60 * 1200959900632135 + 56 ≠ (72057594037928096 : Int).natAbs := by
  have a : (72057594037928096 : Int).natAbs = 72057594037928096 := rfl
  have h0 : ¬ ((72057594037928096 : Int) = 0) := by decide
  have lbl : (updateSliderInfo samplePlatform (some 72057594037928096) (blankPage [])).timeOffset
      = "+1200959900632135h 56m from now" := by
    show sliderInfoText samplePlatform (some 72057594037928096) = _
    simp only [sliderInfoText, h0, if_false, a, floor_divideDoubles_sample]
    decide
  refine ⟨lbl, by decide, by decide, ?_, by decide⟩
  rw [lbl]
  decide

/-! ## Adjusted time -/

/-- C1 (as amended): for every snapshot whose `datetime` is a valid date with
time value `t` and every integer `offsetMinutes`, `getAdjustedTime` carries
`timezone` and `utc_offset` through unchanged; the date it returns is the
instant `t + offsetMinutes * 60 * 1000` whenever that sum lies in the range of
`Date` (at most 8.64e15 ms from the epoch) and is an Invalid Date otherwise. -/
theorem getAdjustedTime_spec (baseTime : Snapshot) (offsetMinutes t : Int)
    (ht : newDate baseTime.datetime = some t) :
    (getAdjustedTime baseTime (some offsetMinutes)).timezone = baseTime.timezone ∧
    (getAdjustedTime baseTime (some offsetMinutes)).utc_offset = baseTime.utc_offset ∧
    ((-maxTimeValue ≤ t + offsetMinutes * 60 * 1000 ∧ t + offsetMinutes * 60 * 1000 ≤ maxTimeValue) →
      (getAdjustedTime baseTime (some offsetMinutes)).date = some (t + offsetMinutes * 60 * 1000)) ∧
    (¬ (-maxTimeValue ≤ t + offsetMinutes * 60 * 1000 ∧ t + offsetMinutes * 60 * 1000 ≤ maxTimeValue) →
      (getAdjustedTime baseTime (some offsetMinutes)).date = none) := by
  refine ⟨rfl, rfl, ?_, ?_⟩
  · intro hr
    simp [getAdjustedTime, ht, timeClip, hr]
  · intro hr
    simp only [getAdjustedTime, ht, timeClip, if_neg hr]

/-- Witness for C1: Kolkata at the epoch, moved ninety minutes ahead. -/
theorem getAdjustedTime_spec_witness :
    newDate sampleSnapshot.datetime = some 0 ∧
    (getAdjustedTime sampleSnapshot (some 90)).timezone = .str "Asia/Kolkata" ∧
    (getAdjustedTime sampleSnapshot (some 90)).utc_offset = .str "+05:30" ∧
    (getAdjustedTime sampleSnapshot (some 90)).date = some 5400000 :=
  ⟨by decide,
   (getAdjustedTime_spec sampleSnapshot 90 0 (by decide)).1,
   (getAdjustedTime_spec sampleSnapshot 90 0 (by decide)).2.1,
   (getAdjustedTime_spec sampleSnapshot 90 0 (by decide)).2.2.1 (by decide)⟩

/-- C1 fails as stated: the snapshot at the last valid instant has time value
8640000000000000, and with an offset of one minute `getAdjustedTime` returns
an Invalid Date instead of the instant one minute later. -/
theorem getAdjustedTime_past_range :
    newDate lastSnapshot.datetime = some 8640000000000000 ∧
    (getAdjustedTime lastSnapshot (some 1)).date ≠ some (8640000000000000 + 1 * 60 * 1000) ∧
    (getAdjustedTime lastSnapshot (some 1)).date = none := by
  decide

/-! ## Day and night -/

/-- C2: the indicator of a card is set to `day` exactly when the hour passed in
satisfies 6 <= hour < 18 and to `night` otherwise.  In any zone with a fixed
offset, on any day, the local times 5:59:59 and 18:00:00 give night and the
local times 6:00:00 and 17:59:59 give day. -/
theorem dayNight_indicator (hour : Int) (elementId : Loc) (dom : Dom) :
    (((updateDayNightIndicatorWithHour hour elementId dom).clock elementId).dayNight = some .day
        ↔ 6 ≤ hour ∧ hour < 18) ∧
    (((updateDayNightIndicatorWithHour hour elementId dom).clock elementId).dayNight = some .night
        ↔ ¬ (6 ≤ hour ∧ hour < 18)) ∧
    (∀ zone day : Int,
      wallClock (fun _ => zone) (day * 86400000 + 21599000 - zone) = ⟨5, 59, 59⟩ ∧
      ((updateDayNightIndicatorWithHour
          (wallClock (fun _ => zone) (day * 86400000 + 21599000 - zone)).hours elementId dom).clock
            elementId).dayNight = some .night ∧
      wallClock (fun _ => zone) (day * 86400000 + 21600000 - zone) = ⟨6, 0, 0⟩ ∧
      ((updateDayNightIndicatorWithHour
          (wallClock (fun _ => zone) (day * 86400000 + 21600000 - zone)).hours elementId dom).clock
            elementId).dayNight = some .day ∧
      wallClock (fun _ => zone) (day * 86400000 + 64799000 - zone) = ⟨17, 59, 59⟩ ∧
      ((updateDayNightIndicatorWithHour
          (wallClock (fun _ => zone) (day * 86400000 + 64799000 - zone)).hours elementId dom).clock
            elementId).dayNight = some .day ∧
      wallClock (fun _ => zone) (day * 86400000 + 64800000 - zone) = ⟨18, 0, 0⟩ ∧
      ((updateDayNightIndicatorWithHour
          (wallClock (fun _ => zone) (day * 86400000 + 64800000 - zone)).hours elementId dom).clock
            elementId).dayNight = some .night) := by
  have key : ∀ h : Int,
      ((updateDayNightIndicatorWithHour h elementId dom).clock elementId).dayNight =
        some (if 6 ≤ h ∧ h < 18 then DayNight.day else DayNight.night) := by
    intro h
    unfold updateDayNightIndicatorWithHour
    by_cases hh : h ≥ 6 ∧ h < 18
    · have hh2 : 6 ≤ h ∧ h < 18 := hh
      rw [if_pos hh, if_pos hh2]; cases elementId <;> rfl
    · have hh2 : ¬ (6 ≤ h ∧ h < 18) := hh
      rw [if_neg hh, if_neg hh2]; cases elementId <;> rfl
  have wc : ∀ zone day r : Int, wallClock (fun _ => zone) (day * 86400000 + r - zone) =
      ⟨(day * 86400000 + r) / 3600000 % 24, (day * 86400000 + r) / 60000 % 60,
        (day * 86400000 + r) / 1000 % 60⟩ := by
    intro zone day r
    simp [wallClock]
  refine ⟨?_, ?_, ?_⟩
  · rw [key]; by_cases hh : 6 ≤ hour ∧ hour < 18 <;> simp [hh]
  · rw [key]; by_cases hh : 6 ≤ hour ∧ hour < 18 <;> simp [hh]
  · intro zone day
    simp only [key, wc]
    have a1 : (day * 86400000 + 21599000) / 3600000 % 24 = 5 := by omega
    have a2 : (day * 86400000 + 21599000) / 60000 % 60 = 59 := by omega
    have a3 : (day * 86400000 + 21599000) / 1000 % 60 = 59 := by omega
    have b1 : (day * 86400000 + 21600000) / 3600000 % 24 = 6 := by omega
    have b2 : (day * 86400000 + 21600000) / 60000 % 60 = 0 := by omega
    have b3 : (day * 86400000 + 21600000) / 1000 % 60 = 0 := by omega
    have c1 : (day * 86400000 + 64799000) / 3600000 % 24 = 17 := by omega
    have c2 : (day * 86400000 + 64799000) / 60000 % 60 = 59 := by omega
    have c3 : (day * 86400000 + 64799000) / 1000 % 60 = 59 := by omega
    have d1 : (day * 86400000 + 64800000) / 3600000 % 24 = 18 := by omega
    have d2 : (day * 86400000 + 64800000) / 60000 % 60 = 0 := by omega
    have d3 : (day * 86400000 + 64800000) / 1000 % 60 = 0 := by omega
    simp [a1, a2, a3, b1, b2, b3, c1, c2, c3, d1, d2, d3]

/-! ## Frames -/

theorem updateTimeDisplay_frame (P : Platform) (timeData : AdjustedTime) (l : Loc) (dom dom2 : Dom)
    (hour : Int) (h : updateTimeDisplay P timeData l dom = .ok (dom2, hour)) :
    dom2.location1 = dom.location1 ∧ dom2.location2 = dom.location2 ∧
    dom2.timeSlider = dom.timeSlider := by
  unfold updateTimeDisplay at h
  split at h
  · cases h
  · split at h
    · cases h
    · injection h with h
      injection h with h1 h2
      subst h1
      cases l <;> simp [Dom.setClock]

theorem updateDayNight_frame (hour : Int) (l : Loc) (dom : Dom) :
    (updateDayNightIndicatorWithHour hour l dom).location1 = dom.location1 ∧
    (updateDayNightIndicatorWithHour hour l dom).location2 = dom.location2 ∧
    (updateDayNightIndicatorWithHour hour l dom).timeSlider = dom.timeSlider := by
  unfold updateDayNightIndicatorWithHour
  split <;> cases l <;> simp [Dom.setClock]

theorem updateDisplay_frame (P : Platform) (s : App) : SameButCards s (updateDisplay P s).1 := by
  unfold updateDisplay
  split
  · dsimp only
    split
    · simp [SameButCards]
    · rename_i dom1 hour1 h1
      have f1 := updateTimeDisplay_frame P _ _ _ _ _ h1
      split
      · simp [SameButCards, f1]
      · rename_i dom2 hour2 h2
        have f2 := updateTimeDisplay_frame P _ _ _ _ _ h2
        have f3 := updateDayNight_frame hour1 .one dom2
        have f4 := updateDayNight_frame hour2 .two (updateDayNightIndicatorWithHour hour1 .one dom2)
        simp [SameButCards, updateSliderInfo, f1, f2, f3, f4]
  · simp [SameButCards]

theorem SameButCards.controls {s r : App} (h : SameButCards s r) : SameControls s r :=
  ⟨h.1, h.2.1, h.2.2.2.2.2.1, h.2.2.2.2.2.2.1, h.2.2.2.2.2.2.2.1, h.2.2.2.2.2.2.2.2.1⟩

theorem SameControls.trans {s r q : App} (h1 : SameControls s r) (h2 : SameControls r q) :
    SameControls s q := by
  unfold SameControls at *
  obtain ⟨a1, a2, a3, a4, a5, a6⟩ := h1
  obtain ⟨b1, b2, b3, b4, b5, b6⟩ := h2
  exact ⟨b1.trans a1, b2.trans a2, b3.trans a3, b4.trans a4, b5.trans a5, b6.trans a6⟩

theorem updateDisplay_frame_of (P : Platform) (s r : App) (e : Option JsError)
    (h : updateDisplay P s = (r, e)) : SameButCards s r := by
  have f := updateDisplay_frame P s
  rw [h] at f
  exact f

theorem fetchTimeForZone_eq (P : Platform) (timezone : JsString) (outcome : FetchOutcome)
    (now : Int) :
    fetchTimeForZone P timezone outcome now =
      .ok (match outcome with
           | .response true (some body) => body
           | _ => getFallbackTimeForZone P timezone now) := by
  unfold fetchTimeForZone requestTime
  rcases outcome with _ | ⟨ok, body⟩
  · rfl
  · cases ok <;> cases body <;> rfl

theorem useFallbackTime_frame (P : Platform) (now1 now2 : Int) (s : App) :
    SameControls s (useFallbackTime P now1 now2 s).1 ∧
    (useFallbackTime P now1 now2 s).1.sliderOffsetMinutes = s.sliderOffsetMinutes ∧
    (useFallbackTime P now1 now2 s).1.baseDateTime1
      = some (getFallbackTimeForZone P s.currentLocation1 now1) ∧
    (useFallbackTime P now1 now2 s).1.baseDateTime2
      = some (getFallbackTimeForZone P s.currentLocation2 now2) := by
  unfold useFallbackTime
  have f := updateDisplay_frame P
    { s with baseDateTime1 := some (getFallbackTimeForZone P s.currentLocation1 now1)
             baseDateTime2 := some (getFallbackTimeForZone P s.currentLocation2 now2) }
  exact ⟨f.controls, f.2.2.2.2.1, f.2.2.1, f.2.2.2.1⟩

theorem fetchAndUpdateTimes_frame (P : Platform) (env : FetchEnv) (s : App) :
    SameControls s (fetchAndUpdateTimes P env s).1 ∧
    (fetchAndUpdateTimes P env s).1.sliderOffsetMinutes = some 0 := by
  unfold fetchAndUpdateTimes
  rw [fetchTimeForZone_eq, fetchTimeForZone_eq]
  dsimp only
  split
  · rename_i s4 h4
    have f := updateDisplay_frame_of P _ _ _ h4
    exact ⟨f.controls, f.2.2.2.2.1⟩
  · rename_i s4 e h4
    have f := updateDisplay_frame_of P _ _ _ h4
    have g := useFallbackTime_frame P env.fallbackClock1 env.fallbackClock2 s4
    exact ⟨f.controls.trans g.1, g.2.1.trans f.2.2.2.2.1⟩

theorem newDate_eq_some (d : Option Int) (a : Int) :
    newDate d = some a ↔ d = some a ∧ -maxTimeValue ≤ a ∧ a ≤ maxTimeValue := by
  cases d with
  | none => simp [newDate]
  | some v =>
    simp only [newDate, Option.some_bind, timeClip]
    constructor
    · intro h
      split at h
      · rename_i hr
        injection h with h
        subst h
        exact ⟨rfl, hr⟩
      · cases h
    · rintro ⟨h, hr⟩
      injection h with h
      subst h
      rw [if_pos hr]

theorem liveUpdate_advance (P : Platform) (s : App) (A B : Snapshot) (a b : Int)
    (hA : s.baseDateTime1 = some A) (hB : s.baseDateTime2 = some B)
    (ha : newDate A.datetime = some a) (hb : newDate B.datetime = some b)
    (ha2 : a + 1000 ≤ maxTimeValue) (hb2 : b + 1000 ≤ maxTimeValue) :
    (liveUpdate P s).1.baseDateTime1 = some { A with datetime := some (a + 1000) } ∧
    (liveUpdate P s).1.baseDateTime2 = some { B with datetime := some (b + 1000) } := by
  have ha1 := ((newDate_eq_some _ _).1 ha).2.1
  have hb1 := ((newDate_eq_some _ _).1 hb).2.1
  have ca : timeClip (a + 1000) = some (a + 1000) := by
    unfold timeClip; rw [if_pos]; constructor <;> omega
  have cb : timeClip (b + 1000) = some (b + 1000) := by
    unfold timeClip; rw [if_pos]; constructor <;> omega
  unfold liveUpdate
  simp only [hA, hB, ha, hb, Option.some_bind, ca, cb]
  split
  · rename_i h0
    have f := updateDisplay_frame P
      { s with baseDateTime1 := some { A with datetime := some (a + 1000) }
               baseDateTime2 := some { B with datetime := some (b + 1000) }
               dom := { s.dom with timeSlider := minutesFromMidnight P (newDate (some (a + 1000))) } }
    exact ⟨f.2.2.1, f.2.2.2.1⟩
  · have f := updateDisplay_frame P
      { s with baseDateTime1 := some { A with datetime := some (a + 1000) }
               baseDateTime2 := some { B with datetime := some (b + 1000) } }
    exact ⟨f.2.2.1, f.2.2.2.1⟩

theorem liveTicks_advance (P : Platform) (N : Nat) : ∀ (s : App) (A B : Snapshot) (a b : Int),
    s.baseDateTime1 = some A → s.baseDateTime2 = some B →
    newDate A.datetime = some a → newDate B.datetime = some b →
    a + N * 1000 ≤ maxTimeValue → b + N * 1000 ≤ maxTimeValue →
    (liveTicks P N s).baseDateTime1 = some { A with datetime := some (a + N * 1000) } ∧
    (liveTicks P N s).baseDateTime2 = some { B with datetime := some (b + N * 1000) } := by
  induction N with
  | zero =>
    intro s A B a b hA hB ha hb _ _
    have ea := ((newDate_eq_some _ _).1 ha).1
    have eb := ((newDate_eq_some _ _).1 hb).1
    simp only [liveTicks, hA, hB, Nat.cast_zero, zero_mul, add_zero]
    rw [← ea, ← eb]
    exact ⟨rfl, rfl⟩
  | succ n ih =>
    intro s A B a b hA hB ha hb ha2 hb2
    have ha1 := ((newDate_eq_some _ _).1 ha).2.1
    have hb1 := ((newDate_eq_some _ _).1 hb).2.1
    push_cast at ha2 hb2
    obtain ⟨h1, h2⟩ := liveUpdate_advance P s A B a b hA hB ha hb (by omega) (by omega)
    have na : newDate ({ A with datetime := some (a + 1000) } : Snapshot).datetime = some (a + 1000) :=
      (newDate_eq_some _ _).2 ⟨rfl, by omega, by omega⟩
    have nb : newDate ({ B with datetime := some (b + 1000) } : Snapshot).datetime = some (b + 1000) :=
      (newDate_eq_some _ _).2 ⟨rfl, by omega, by omega⟩
    obtain ⟨r1, r2⟩ := ih _ _ _ _ _ h1 h2 na nb (by omega) (by omega)
    simp only [liveTicks]
    rw [r1, r2]
    push_cast
    refine ⟨?_, ?_⟩
    · congr 2; ring_nf
    · congr 2; ring_nf

theorem singleTicker_iff (s : App) :
    SingleTicker s ↔
      (s.updateInterval = none ∧ s.timers.active = []) ∨
      ∃ h, 0 < h ∧ h ≤ s.timers.issued ∧ s.updateInterval = some h ∧ s.timers.active = [h] := by
  unfold SingleTicker
  cases hu : s.updateInterval with
  | none => simp
  | some k =>
    constructor
    · rintro ⟨a, b, c⟩
      exact Or.inr ⟨k, a, b, rfl, c⟩
    · rintro (⟨h, _⟩ | ⟨h, a, b, c, d⟩)
      · cases h
      · injection c with c
        subst c
        exact ⟨a, b, d⟩

theorem SingleTicker.of_same {s r : App} (h : SingleTicker s)
    (hi : r.updateInterval = s.updateInterval) (ht : r.timers = s.timers) : SingleTicker r := by
  unfold SingleTicker at *
  rw [hi, ht]
  exact h

theorem startLiveUpdates_spec (s : App) (h : SingleTicker s) :
    (startLiveUpdates s).updateInterval = some (s.timers.issued + 1) ∧
    (startLiveUpdates s).timers.active = [s.timers.issued + 1] ∧
    (startLiveUpdates s).timers.issued = s.timers.issued + 1 := by
  rcases (singleTicker_iff s).1 h with ⟨h1, h2⟩ | ⟨k, hk, hk2, h1, h2⟩
  · simp [startLiveUpdates, h1, h2, Timers.setInterval]
  · have hk0 : k ≠ 0 := by omega
    simp [startLiveUpdates, h1, h2, Timers.setInterval, Timers.clearInterval, hk0]

theorem startLiveUpdates_inv (s : App) (h : SingleTicker s) : SingleTicker (startLiveUpdates s) := by
  obtain ⟨a, b, c⟩ := startLiveUpdates_spec s h
  exact (singleTicker_iff _).2 (Or.inr ⟨s.timers.issued + 1, by omega, by omega, a, b⟩)

theorem updateDisplay_after (P : Platform) (s0 s1 : App) (h : SameControls s0 s1) :
    SameControls s0 (updateDisplay P s1).1 :=
  h.trans (updateDisplay_frame P s1).controls

theorem fetchAndUpdateTimes_frame_of (P : Platform) (env : FetchEnv) (s r : App)
    (e : Option JsError) (h : fetchAndUpdateTimes P env s = (r, e)) :
    SameControls s r ∧ r.sliderOffsetMinutes = some 0 := by
  have f := fetchAndUpdateTimes_frame P env s
  rw [h] at f
  exact f

theorem liveUpdate_frame (P : Platform) (s : App) :
    SameControls s (liveUpdate P s).1 ∧
    (liveUpdate P s).1.sliderOffsetMinutes = s.sliderOffsetMinutes := by
  unfold liveUpdate
  split
  · split
    · simp [SameControls]
    · dsimp only
      split
      · simp [SameControls]
      · split
        · exact ⟨updateDisplay_after P s _ (by simp [SameControls]),
            (updateDisplay_frame P _).2.2.2.2.1⟩
        · exact ⟨updateDisplay_after P s _ (by simp [SameControls]),
            (updateDisplay_frame P _).2.2.2.2.1⟩
  · simp [SameControls]

theorem handleSliderChange_frame (P : Platform) (m : Int) (s : App) :
    SameControls s (handleSliderChange P m s).1 := by
  unfold handleSliderChange
  dsimp only
  split
  · simp [SameControls]
  · exact updateDisplay_after P s _ (by simp [SameControls])

theorem handleLocationChange_inv (P : Platform) (env : FetchEnv) (s : App) (h : SingleTicker s) :
    SingleTicker (handleLocationChange P env s).1 := by
  unfold handleLocationChange
  dsimp only
  split
  · split
    · exact h.of_same rfl rfl
    · split
      · exact h.of_same rfl rfl
      · split
        · rename_i s5 e h5
          have f := (fetchAndUpdateTimes_frame_of P env _ _ _ h5).1
          exact h.of_same f.2.2.1 f.2.2.2.1
        · rename_i s5 h5
          have f := (fetchAndUpdateTimes_frame_of P env _ _ _ h5).1
          exact startLiveUpdates_inv _ (h.of_same f.2.2.1 f.2.2.2.1)
  · exact h

theorem realSecond_eq (P : Platform) (s : App) (h : SingleTicker s) :
    realSecond P s = s ∨ realSecond P s = (liveUpdate P s).1 := by
  rcases (singleTicker_iff s).1 h with ⟨_, h2⟩ | ⟨k, _, _, _, h2⟩
  · left; simp [realSecond, h2]
  · right; simp [realSecond, h2]

theorem step_inv (P : Platform) (s : App) (e : Event) (h : SingleTicker s) :
    SingleTicker (step P s e) := by
  cases e with
  | setLocation1 v => exact h.of_same rfl rfl
  | setLocation2 v => exact h.of_same rfl rfl
  | locationChange env => exact handleLocationChange_inv P env s h
  | swap env =>
    exact handleLocationChange_inv P env _ (h.of_same rfl rfl)
  | slider m =>
    have f := handleSliderChange_frame P m s
    exact h.of_same f.2.2.1 f.2.2.2.1
  | reset env =>
    have f := (fetchAndUpdateTimes_frame P env s).1
    exact h.of_same f.2.2.1 f.2.2.2.1
  | second =>
    rcases realSecond_eq P s h with e | e
    · show SingleTicker (realSecond P s)
      rw [e]; exact h
    · show SingleTicker (realSecond P s)
      rw [e]
      have f := (liveUpdate_frame P s).1
      exact h.of_same f.2.2.1 f.2.2.2.1

theorem run_inv (P : Platform) (events : List Event) : ∀ s : App, SingleTicker s →
    SingleTicker (run P events s) := by
  induction events with
  | nil => intro s h; exact h
  | cons e es ih => intro s h; exact ih _ (step_inv P s e h)

theorem initialApp_inv (dom : Dom) : SingleTicker (initialApp dom) :=
  (singleTicker_iff _).2 (Or.inl ⟨rfl, rfl⟩)

theorem timeClip_eq_some (v t : Int) (h : timeClip v = some t) :
    t = v ∧ newDate (some t) = some t := by
  unfold timeClip at h
  split at h
  · rename_i hr
    injection h with h
    subst h
    exact ⟨rfl, (newDate_eq_some _ _).2 ⟨rfl, hr⟩⟩
  · cases h

theorem atMostOneSecond_of (before after : Option Snapshot)
    (h : ∀ A a, before = some A → newDate A.datetime = some a →
      ∃ A2, after = some A2 ∧
        (newDate A2.datetime = some a ∨ newDate A2.datetime = some (a + 1000))) :
    AtMostOneSecond before after := by
  unfold AtMostOneSecond
  split
  · trivial
  · rename_i a ha
    cases before with
    | none => simp at ha
    | some A =>
      obtain ⟨A2, e, h2⟩ := h A a rfl (by simpa using ha)
      subst e
      simpa using h2

theorem AtMostOneSecond.refl (b : Option Snapshot) : AtMostOneSecond b b :=
  atMostOneSecond_of b b fun A _ hA ha => ⟨A, hA, Or.inl ha⟩

theorem liveUpdate_at_most (P : Platform) (s : App) :
    AtMostOneSecond s.baseDateTime1 (liveUpdate P s).1.baseDateTime1 ∧
    AtMostOneSecond s.baseDateTime2 (liveUpdate P s).1.baseDateTime2 := by
  unfold liveUpdate
  split
  · rename_i b1 b2 h1 h2
    split
    · exact ⟨AtMostOneSecond.refl _, AtMostOneSecond.refl _⟩
    · rename_i t1 ht1
      dsimp only
      have adv1 : AtMostOneSecond s.baseDateTime1 (some { b1 with datetime := some t1 }) := by
        refine atMostOneSecond_of _ _ ?_
        intro A a hA ha
        rw [h1] at hA
        injection hA with hA
        subst hA
        rw [ha, Option.some_bind] at ht1
        obtain ⟨e, hn⟩ := timeClip_eq_some _ _ ht1
        exact ⟨_, rfl, Or.inr (by rw [← e]; exact hn)⟩
      split
      · exact ⟨adv1, AtMostOneSecond.refl _⟩
      · rename_i t2 ht2
        have adv2 : AtMostOneSecond s.baseDateTime2 (some { b2 with datetime := some t2 }) := by
          refine atMostOneSecond_of _ _ ?_
          intro A a hA ha
          rw [h2] at hA
          injection hA with hA
          subst hA
          rw [ha, Option.some_bind] at ht2
          obtain ⟨e, hn⟩ := timeClip_eq_some _ _ ht2
          exact ⟨_, rfl, Or.inr (by rw [← e]; exact hn)⟩
        split
        · have f := updateDisplay_frame P
            { s with baseDateTime1 := some { b1 with datetime := some t1 }
                     baseDateTime2 := some { b2 with datetime := some t2 }
                     dom := { s.dom with timeSlider := minutesFromMidnight P (newDate (some t1)) } }
          rw [f.2.2.1, f.2.2.2.1]
          exact ⟨adv1, adv2⟩
        · have f := updateDisplay_frame P
            { s with baseDateTime1 := some { b1 with datetime := some t1 }
                     baseDateTime2 := some { b2 with datetime := some t2 } }
          rw [f.2.2.1, f.2.2.2.1]
          exact ⟨adv1, adv2⟩
  · exact ⟨AtMostOneSecond.refl _, AtMostOneSecond.refl _⟩

/-- C8: the timers are the set of live interval handles plus `updateInterval`.
From a freshly loaded page, after every sequence of events (location changes,
each of which ends in a call of `startLiveUpdates`, swaps, slider moves, resets
and seconds of real time) the live intervals are exactly the one whose handle
`updateInterval` holds, so at most one is live.  One more call of
`startLiveUpdates` leaves exactly one live interval, the one it stores in
`updateInterval`, and the handle held before is no longer live.  Hence in one
second of real time, in which every live interval fires once, each snapshot
time moves by nothing or by exactly 1000 ms, never by more. -/
theorem single_ticker_invariant (P : Platform) (dom : Dom) (events : List Event) :
    (run P events (initialApp dom)).timers.active
        = (run P events (initialApp dom)).updateInterval.toList ∧
    (run P events (initialApp dom)).timers.active.length ≤ 1 ∧
    (startLiveUpdates (run P events (initialApp dom))).timers.active
        = (startLiveUpdates (run P events (initialApp dom))).updateInterval.toList ∧
    (startLiveUpdates (run P events (initialApp dom))).timers.active.length = 1 ∧
    (∀ h, (run P events (initialApp dom)).updateInterval = some h →
        h ∉ (startLiveUpdates (run P events (initialApp dom))).timers.active) ∧
    AtMostOneSecond (run P events (initialApp dom)).baseDateTime1
        (realSecond P (run P events (initialApp dom))).baseDateTime1 ∧
    AtMostOneSecond (run P events (initialApp dom)).baseDateTime2
        (realSecond P (run P events (initialApp dom))).baseDateTime2 := by
  have inv := run_inv P events _ (initialApp_inv dom)
  generalize run P events (initialApp dom) = s at inv
  obtain ⟨a, b, c⟩ := startLiveUpdates_spec s inv
  have sec := realSecond_eq P s inv
  refine ⟨?_, ?_, ?_, ?_, ?_, ?_, ?_⟩
  · rcases (singleTicker_iff s).1 inv with ⟨h1, h2⟩ | ⟨k, _, _, h1, h2⟩ <;> simp [h1, h2]
  · rcases (singleTicker_iff s).1 inv with ⟨h1, h2⟩ | ⟨k, _, _, h1, h2⟩ <;> simp [h2]
  · simp [a, b]
  · simp [b]
  · intro h hh
    rcases (singleTicker_iff s).1 inv with ⟨h1, h2⟩ | ⟨k, _, hk, h1, h2⟩
    · rw [h1] at hh; cases hh
    · rw [h1] at hh
      injection hh with hh
      subst hh
      rw [b]
      simp
      omega
  · rcases sec with e | e <;> rw [e]
    · exact AtMostOneSecond.refl _
    · exact (liveUpdate_at_most P s).1
  · rcases sec with e | e <;> rw [e]
    · exact AtMostOneSecond.refl _
    · exact (liveUpdate_at_most P s).2

theorem updateDisplay_ok (P : Platform) (s : App) (b1 b2 : Snapshot) (off1 off2 : Int → Int)
    (t1 t2 : Int)
    (h1 : s.baseDateTime1 = some b1) (h2 : s.baseDateTime2 = some b2)
    (z1 : resolveZone P b1.timezone = some off1) (z2 : resolveZone P b2.timezone = some off2)
    (d1 : (getAdjustedTime b1 s.sliderOffsetMinutes).date = some t1)
    (d2 : (getAdjustedTime b2 s.sliderOffsetMinutes).date = some t2) :
    (updateDisplay P s).2 = none ∧
    (updateDisplay P s).1.dom.clock1.digitalTime = some (wallClock off1 t1) ∧
    (updateDisplay P s).1.dom.clock2.digitalTime = some (wallClock off2 t2) ∧
    (updateDisplay P s).1.dom.clock1.dayNight =
      some (if 6 ≤ (wallClock off1 t1).hours ∧ (wallClock off1 t1).hours < 18
            then DayNight.day else DayNight.night) ∧
    (updateDisplay P s).1.dom.clock2.dayNight =
      some (if 6 ≤ (wallClock off2 t2).hours ∧ (wallClock off2 t2).hours < 18
            then DayNight.day else DayNight.night) ∧
    (updateDisplay P s).1.dom.timeOffset = sliderInfoText P s.sliderOffsetMinutes := by
  have tz1 : (getAdjustedTime b1 s.sliderOffsetMinutes).timezone = b1.timezone := rfl
  have tz2 : (getAdjustedTime b2 s.sliderOffsetMinutes).timezone = b2.timezone := rfl
  unfold updateDisplay
  simp only [h1, h2, updateTimeDisplay, tz1, tz2, z1, z2, d1, d2]
  unfold updateDayNightIndicatorWithHour
  by_cases c1 : (wallClock off1 t1).hours ≥ 6 ∧ (wallClock off1 t1).hours < 18 <;>
    by_cases c2 : (wallClock off2 t2).hours ≥ 6 ∧ (wallClock off2 t2).hours < 18 <;>
    simp [c1, c2, Dom.setClock, Dom.clock, updateSliderInfo]

theorem getAdjustedTime_zero (b : Snapshot) (t : Int) (h : newDate b.datetime = some t) :
    (getAdjustedTime b (some 0)).date = some t := by
  have hr := ((newDate_eq_some _ _).1 h).2
  simp [getAdjustedTime, h, timeClip, hr]

theorem fetchAndUpdateTimes_stores (P : Platform) (env : FetchEnv) (s : App)
    (time1 time2 : Snapshot) (off1 off2 : Int → Int) (t1 t2 : Int)
    (f1 : fetchTimeForZone P s.currentLocation1 env.outcome1 env.clock1 = .ok time1)
    (f2 : fetchTimeForZone P s.currentLocation2 env.outcome2 env.clock2 = .ok time2)
    (z1 : resolveZone P time1.timezone = some off1) (z2 : resolveZone P time2.timezone = some off2)
    (d1 : newDate time1.datetime = some t1) (d2 : newDate time2.datetime = some t2) :
    (fetchAndUpdateTimes P env s).2 = none ∧
    (fetchAndUpdateTimes P env s).1.baseDateTime1 = some time1 ∧
    (fetchAndUpdateTimes P env s).1.baseDateTime2 = some time2 ∧
    (fetchAndUpdateTimes P env s).1.dom.timeSlider = minutesFromMidnight P (some t1) ∧
    (fetchAndUpdateTimes P env s).1.dom.clock1.digitalTime = some (wallClock off1 t1) := by
  unfold fetchAndUpdateTimes
  rw [f1, f2]
  dsimp only
  have ok := updateDisplay_ok P
    { s with baseDateTime1 := some time1, baseDateTime2 := some time2
             sliderOffsetMinutes := some 0
             dom := { s.dom with timeSlider := minutesFromMidnight P (newDate time1.datetime) } }
    time1 time2 off1 off2 t1 t2 rfl rfl z1 z2
    (getAdjustedTime_zero _ _ d1) (getAdjustedTime_zero _ _ d2)
  have fr := updateDisplay_frame P
    { s with baseDateTime1 := some time1, baseDateTime2 := some time2
             sliderOffsetMinutes := some 0
             dom := { s.dom with timeSlider := minutesFromMidnight P (newDate time1.datetime) } }
  split
  · rename_i s4 h4
    rw [h4] at ok fr
    refine ⟨rfl, fr.2.2.1, fr.2.2.2.1, ?_, ok.2.1⟩
    rw [fr.2.2.2.2.2.2.2.2.2, d1]
  · rename_i s4 e h4
    rw [h4] at ok
    exact absurd ok.1 (by simp)

/-- C7 (as amended): `fetchTimeForZone` returns the local-clock fallback
snapshot whenever the request is rejected, the status is not a success or the
body does not parse as JSON; a body that parses is returned as it is, whatever
properties it has or lacks.  In `fetchAndUpdateTimes`, when the fetch of one
location falls back and the other location's fetched snapshot has a valid
`datetime` and a time zone the platform accepts (and the fallback can be
rendered too), the call ends without an error and the snapshots it stores are
the fallback for the one location and the fetched snapshot for the other. -/
theorem fetchTimeForZone_fallback_cases (P : Platform) (timezone : JsString) (now : Int) :
    (∀ outcome : FetchOutcome, outcome.failing = true →
      fetchTimeForZone P timezone outcome now = .ok (getFallbackTimeForZone P timezone now)) ∧
    (∀ body : Snapshot,
      fetchTimeForZone P timezone (.response true (some body)) now = .ok body) ∧
    (∀ (env : FetchEnv) (s : App) (body : Snapshot) (off1 off2 : Int → Int) (t : Int),
      env.outcome1.failing = true → env.outcome2 = .response true (some body) →
      resolveZone P s.currentLocation1 = some off1 →
      -maxTimeValue ≤ env.clock1 ∧ env.clock1 ≤ maxTimeValue →
      resolveZone P body.timezone = some off2 → newDate body.datetime = some t →
      (fetchAndUpdateTimes P env s).2 = none ∧
      (fetchAndUpdateTimes P env s).1.baseDateTime1
        = some (getFallbackTimeForZone P s.currentLocation1 env.clock1) ∧
      (fetchAndUpdateTimes P env s).1.baseDateTime2 = some body) ∧
    (∀ (env : FetchEnv) (s : App) (body : Snapshot) (off1 off2 : Int → Int) (t : Int),
      env.outcome2.failing = true → env.outcome1 = .response true (some body) →
      resolveZone P s.currentLocation2 = some off2 →
      -maxTimeValue ≤ env.clock2 ∧ env.clock2 ≤ maxTimeValue →
      resolveZone P body.timezone = some off1 → newDate body.datetime = some t →
      (fetchAndUpdateTimes P env s).2 = none ∧
      (fetchAndUpdateTimes P env s).1.baseDateTime1 = some body ∧
      (fetchAndUpdateTimes P env s).1.baseDateTime2
        = some (getFallbackTimeForZone P s.currentLocation2 env.clock2)) := by
  have fb : ∀ (tz : JsString) (outcome : FetchOutcome) (clock : Int), outcome.failing = true →
      fetchTimeForZone P tz outcome clock = .ok (getFallbackTimeForZone P tz clock) := by
    intro tz outcome clock hf
    rw [fetchTimeForZone_eq]
    rcases outcome with _ | ⟨ok, body⟩
    · rfl
    · cases ok <;> cases body <;> first | rfl | (simp [FetchOutcome.failing] at hf)
  refine ⟨fun outcome hf => fb timezone outcome now hf, fun body => fetchTimeForZone_eq P timezone _ now, ?_, ?_⟩
  · intro env s body off1 off2 t hf ho z1 hc z2 d2
    have g1 := fb s.currentLocation1 env.outcome1 env.clock1 hf
    have g2 : fetchTimeForZone P s.currentLocation2 env.outcome2 env.clock2 = .ok body := by
      rw [ho]; exact fetchTimeForZone_eq P _ _ _
    have r := fetchAndUpdateTimes_stores P env s _ _ off1 off2 env.clock1 t g1 g2 z1 z2
      ((newDate_eq_some _ _).2 ⟨rfl, hc⟩) d2
    exact ⟨r.1, r.2.1, r.2.2.1⟩
  · intro env s body off1 off2 t hf ho z2 hc z1 d1
    have g2 := fb s.currentLocation2 env.outcome2 env.clock2 hf
    have g1 : fetchTimeForZone P s.currentLocation1 env.outcome1 env.clock1 = .ok body := by
      rw [ho]; exact fetchTimeForZone_eq P _ _ _
    have r := fetchAndUpdateTimes_stores P env s _ _ off1 off2 t env.clock2 g1 g2 z1 z2 d1
      ((newDate_eq_some _ _).2 ⟨rfl, hc⟩)
    exact ⟨r.1, r.2.1, r.2.2.1⟩

/-- Witness for C7: the request for Kolkata is rejected, the one for New York
succeeds; New York keeps its fetched snapshot. -/
theorem fetchTimeForZone_fallback_cases_witness :
    fetchTimeForZone samplePlatform (.str "Asia/Kolkata") .rejected 1000
      = .ok (getFallbackTimeForZone samplePlatform (.str "Asia/Kolkata") 1000) ∧
    (fetchAndUpdateTimes samplePlatform oneFailingEnv sampleApp).1.baseDateTime2
      = some newYorkSnapshot :=
  ⟨(fetchTimeForZone_fallback_cases samplePlatform (.str "Asia/Kolkata") 1000).1 .rejected rfl,
   ((fetchTimeForZone_fallback_cases samplePlatform (.str "Asia/Kolkata") 1000).2.2.1
      oneFailingEnv sampleApp newYorkSnapshot (fun _ => 19800000) (fun _ => -18000000) 0
      rfl rfl rfl (by decide) rfl (by decide)).2.2⟩

/-- C7 fails as stated: a successful response whose body parses as JSON but
has neither `datetime` nor `utc_offset` is returned as the snapshot; it is not
the fallback snapshot. -/
theorem fetchTimeForZone_body_without_datetime :
    bareBody.datetime = none ∧ bareBody.utc_offset = .undefined ∧
    fetchTimeForZone samplePlatform (.str "Asia/Kolkata") (.response true (some bareBody)) 1000
      = .ok bareBody ∧
    bareBody ≠ getFallbackTimeForZone samplePlatform (.str "Asia/Kolkata") 1000 := by
  refine ⟨rfl, rfl, rfl, by decide⟩

theorem fetchTimeForZone_failing (P : Platform) (tz : JsString) (outcome : FetchOutcome)
    (clock : Int) (hf : outcome.failing = true) :
    fetchTimeForZone P tz outcome clock = .ok (getFallbackTimeForZone P tz clock) := by
  rw [fetchTimeForZone_eq]
  rcases outcome with _ | ⟨ok, body⟩
  · rfl
  · cases ok <;> cases body <;> first | rfl | (simp [FetchOutcome.failing] at hf)

/-- C6: for every timezone id of the catalog and every failing outcome of the
request (rejected fetch, non-success status, unparseable body),
`fetchTimeForZone` returns normally, and the snapshot it returns has the
reading of the local clock as `datetime`, the requested id as `timezone`, and
as `utc_offset` the nominal offset of the catalog row for that id (the row
`find` yields, the first with that id). -/
theorem fetchTimeForZone_never_fails (P : Platform) (id : String) (outcome : FetchOutcome)
    (now : Int) (hid : id ∈ P.timezones.map (fun tz => tz.timezone))
    (hfail : outcome.failing = true) :
    ∃ d, d ∈ P.timezones ∧ d.timezone = id ∧
      P.timezones.find? (fun tz => decide (tz.timezone = id)) = some d ∧
      fetchTimeForZone P (.str id) outcome now =
        .ok { datetime := some now, timezone := .str id, utc_offset := .str d.offset,
              utc_timestamp := some now } := by
  obtain ⟨d0, hd0, hd0id⟩ := List.mem_map.1 hid
  cases hf : P.timezones.find? (fun tz => decide (tz.timezone = id)) with
  | none =>
    have := List.find?_eq_none.1 hf d0 hd0
    simp [hd0id] at this
  | some d =>
    have hmem := List.mem_of_find?_eq_some hf
    have hp := List.find?_some hf
    have hdid : d.timezone = id := by simpa using hp
    refine ⟨d, hmem, hdid, rfl, ?_⟩
    have hfb := fetchTimeForZone_failing P (.str id) outcome now hfail
    rw [hfb]
    have hoff : getTimezoneOffset P (.str id) = d.offset := by
      unfold getTimezoneOffset
      have : (fun tz : TimezoneDescriptor => decide (JsString.str tz.timezone = JsString.str id))
          = (fun tz => decide (tz.timezone = id)) := by
        funext tz; simp
      rw [this, hf]
    simp [getFallbackTimeForZone, hoff]

/-- Witness for C6: Kolkata, with a response whose status is not a success. -/
theorem fetchTimeForZone_never_fails_witness :
    ∃ d, d ∈ samplePlatform.timezones ∧ d.timezone = "Asia/Kolkata" ∧
      samplePlatform.timezones.find? (fun tz => decide (tz.timezone = "Asia/Kolkata")) = some d ∧
      fetchTimeForZone samplePlatform (.str "Asia/Kolkata") (.response false none) 1000 =
        .ok { datetime := some 1000, timezone := .str "Asia/Kolkata", utc_offset := .str d.offset,
              utc_timestamp := some 1000 } :=
  fetchTimeForZone_never_fails samplePlatform "Asia/Kolkata" (.response false none) 1000
    (by decide) (by decide)

/-- C4 (as amended): for every N and every state in which both snapshots exist
with valid dates `a` and `b` such that `a + N * 1000` and `b + N * 1000` are
still in the range of `Date`, after N ticks of the live-update callback with
nothing in between, snapshot A holds exactly `a + N * 1000` and snapshot B
exactly `b + N * 1000`, their other properties are untouched, and the
difference of the two times is what it was. -/
theorem liveTicks_exact (P : Platform) (N : Nat) (s : App) (A B : Snapshot) (a b : Int)
    (hA : s.baseDateTime1 = some A) (hB : s.baseDateTime2 = some B)
    (ha : newDate A.datetime = some a) (hb : newDate B.datetime = some b)
    (ha2 : a + N * 1000 ≤ maxTimeValue) (hb2 : b + N * 1000 ≤ maxTimeValue) :
    ∃ A2 B2, (liveTicks P N s).baseDateTime1 = some A2 ∧ (liveTicks P N s).baseDateTime2 = some B2 ∧
      newDate A2.datetime = some (a + N * 1000) ∧ newDate B2.datetime = some (b + N * 1000) ∧
      A2 = { A with datetime := some (a + N * 1000) } ∧
      B2 = { B with datetime := some (b + N * 1000) } ∧
      (a + N * 1000) - (b + N * 1000) = a - b := by
  obtain ⟨r1, r2⟩ := liveTicks_advance P N s A B a b hA hB ha hb ha2 hb2
  have ha1 := ((newDate_eq_some _ _).1 ha).2.1
  have hb1 := ((newDate_eq_some _ _).1 hb).2.1
  refine ⟨_, _, r1, r2, ?_, ?_, rfl, rfl, by ring⟩
  · exact (newDate_eq_some _ _).2 ⟨rfl, by omega, ha2⟩
  · exact (newDate_eq_some _ _).2 ⟨rfl, by omega, hb2⟩

/-- Witness for C4: three ticks from two snapshots at the epoch. -/
theorem liveTicks_exact_witness :
    ∃ A2 B2, (liveTicks samplePlatform 3 tickingApp).baseDateTime1 = some A2 ∧
      (liveTicks samplePlatform 3 tickingApp).baseDateTime2 = some B2 ∧
      newDate A2.datetime = some (0 + (3 : Nat) * 1000) ∧
      newDate B2.datetime = some (0 + (3 : Nat) * 1000) ∧
      A2 = { sampleSnapshot with datetime := some (0 + (3 : Nat) * 1000) } ∧
      B2 = { newYorkSnapshot with datetime := some (0 + (3 : Nat) * 1000) } ∧
      ((0 : Int) + (3 : Nat) * 1000) - (0 + (3 : Nat) * 1000) = 0 - 0 :=
  liveTicks_exact samplePlatform 3 tickingApp sampleSnapshot newYorkSnapshot 0 0 rfl rfl
    (by decide) (by decide) (by decide) (by decide)

/-- C4 fails as stated: both snapshots exist, snapshot A stands at the last
valid instant 8640000000000000; the tick raises a `RangeError` in
`toISOString` and snapshot A is not advanced by 1000 ms. -/
theorem liveTicks_at_last_instant :
    lastInstantApp.baseDateTime1 = some lastSnapshot ∧
    lastInstantApp.baseDateTime2 = some newYorkSnapshot ∧
    newDate lastSnapshot.datetime = some 8640000000000000 ∧
    (liveTicks samplePlatform 1 lastInstantApp).baseDateTime1 = some lastSnapshot ∧
    ((liveTicks samplePlatform 1 lastInstantApp).baseDateTime1.bind fun A => newDate A.datetime)
      ≠ some (8640000000000000 + 1 * 1000) := by
  decide

theorem find_catalog (P : Platform) (id : String)
    (hid : id ∈ P.timezones.map (fun tz => tz.timezone)) :
    ∃ d, P.timezones.find? (fun tz => decide (tz.timezone = id)) = some d := by
  obtain ⟨d0, hd0, hd0id⟩ := List.mem_map.1 hid
  cases hf : P.timezones.find? (fun tz => decide (tz.timezone = id)) with
  | none =>
    have := List.find?_eq_none.1 hf d0 hd0
    simp [hd0id] at this
  | some d => exact ⟨d, rfl⟩

theorem startLiveUpdates_frame (s : App) :
    (startLiveUpdates s).currentLocation1 = s.currentLocation1 ∧
    (startLiveUpdates s).currentLocation2 = s.currentLocation2 ∧
    (startLiveUpdates s).dom = s.dom ∧
    (startLiveUpdates s).sliderOffsetMinutes = s.sliderOffsetMinutes ∧
    (startLiveUpdates s).baseDateTime1 = s.baseDateTime1 ∧
    (startLiveUpdates s).baseDateTime2 = s.baseDateTime2 :=
  ⟨rfl, rfl, rfl, rfl, rfl, rfl⟩

theorem handleLocationChange_spec (P : Platform) (env : FetchEnv) (s : App) (X Y : String)
    (hx : s.dom.location1.value = X) (hy : s.dom.location2.value = Y)
    (hx0 : X ≠ "") (hy0 : Y ≠ "")
    (hxc : X ∈ P.timezones.map (fun tz => tz.timezone))
    (hyc : Y ∈ P.timezones.map (fun tz => tz.timezone)) :
    (handleLocationChange P env s).1.currentLocation1 = .str X ∧
    (handleLocationChange P env s).1.currentLocation2 = .str Y ∧
    (handleLocationChange P env s).1.dom.location1 = s.dom.location1 ∧
    (handleLocationChange P env s).1.dom.location2 = s.dom.location2 ∧
    (handleLocationChange P env s).1.sliderOffsetMinutes = some 0 := by
  obtain ⟨d1, hd1⟩ := find_catalog P X hxc
  obtain ⟨d2, hd2⟩ := find_catalog P Y hyc
  unfold handleLocationChange
  simp only [hx, hy, hd1, hd2]
  rw [if_pos ⟨hx0, hy0⟩]
  split
  · rename_i s5 e h5
    obtain ⟨f, g⟩ := fetchAndUpdateTimes_frame_of P env _ _ _ h5
    exact ⟨f.1, f.2.1, f.2.2.2.2.1, f.2.2.2.2.2, g⟩
  · rename_i s5 h5
    obtain ⟨f, g⟩ := fetchAndUpdateTimes_frame_of P env _ _ _ h5
    exact ⟨f.1, f.2.1, f.2.2.2.2.1, f.2.2.2.2.2, g⟩

theorem swapLocations_spec (P : Platform) (env : FetchEnv) (s : App) (A B : String)
    (h1 : s.dom.location1.value = A) (h2 : s.dom.location2.value = B)
    (hA0 : A ≠ "") (hB0 : B ≠ "")
    (hAc : A ∈ P.timezones.map (fun tz => tz.timezone))
    (hBc : B ∈ P.timezones.map (fun tz => tz.timezone))
    (oA2 : A ∈ s.dom.location2.options) (oB1 : B ∈ s.dom.location1.options) :
    (swapLocations P env s).1.dom.location1 = { s.dom.location1 with value := B } ∧
    (swapLocations P env s).1.dom.location2 = { s.dom.location2 with value := A } ∧
    (swapLocations P env s).1.currentLocation1 = .str B ∧
    (swapLocations P env s).1.currentLocation2 = .str A ∧
    (swapLocations P env s).1.sliderOffsetMinutes = some 0 := by
  unfold swapLocations
  have e1 : s.dom.location1.setValue s.dom.location2.value = { s.dom.location1 with value := B } := by
    simp [Select.setValue, h2, oB1]
  have e2 : s.dom.location2.setValue s.dom.location1.value = { s.dom.location2 with value := A } := by
    simp [Select.setValue, h1, oA2]
  dsimp only
  rw [e1, e2]
  have r := handleLocationChange_spec P env
    { s with dom := { s.dom with location1 := { s.dom.location1 with value := B }
                                 location2 := { s.dom.location2 with value := A } } }
    B A rfl rfl hB0 hA0 hBc hAc
  exact ⟨r.2.2.1, r.2.2.2.1, r.1, r.2.1, r.2.2.2.2⟩

theorem scrub_frame (P : Platform) (moves : List Int) : ∀ s : App,
    SameControls s (scrub P moves s) := by
  induction moves with
  | nil => intro s; simp [scrub, SameControls]
  | cons m ms ih =>
    intro s
    exact (handleSliderChange_frame P m s).trans (ih _)

/-- C9: let A and B be catalog ids selected in the two pickers (both offered by
both pickers, neither empty).  `swapLocations`, with the location change it
starts, leaves B and A selected and current and the slider offset at 0.
Whatever slider moves follow, a second `swapLocations` leaves A and B selected
and current again, with `sliderOffsetMinutes` equal to 0 and not the offset
scrubbed to in between. -/
theorem swapLocations_twice (P : Platform) (env1 env2 : FetchEnv) (moves : List Int) (s : App)
    (A B : String)
    (h1 : s.dom.location1.value = A) (h2 : s.dom.location2.value = B)
    (hA0 : A ≠ "") (hB0 : B ≠ "")
    (hAc : A ∈ P.timezones.map (fun tz => tz.timezone))
    (hBc : B ∈ P.timezones.map (fun tz => tz.timezone))
    (oA1 : A ∈ s.dom.location1.options) (oA2 : A ∈ s.dom.location2.options)
    (oB1 : B ∈ s.dom.location1.options) (oB2 : B ∈ s.dom.location2.options) :
    (swapLocations P env1 s).1.dom.location1.value = B ∧
    (swapLocations P env1 s).1.dom.location2.value = A ∧
    (swapLocations P env1 s).1.currentLocation1 = .str B ∧
    (swapLocations P env1 s).1.currentLocation2 = .str A ∧
    (swapLocations P env1 s).1.sliderOffsetMinutes = some 0 ∧
    (swapLocations P env2 (scrub P moves (swapLocations P env1 s).1)).1.dom.location1.value = A ∧
    (swapLocations P env2 (scrub P moves (swapLocations P env1 s).1)).1.dom.location2.value = B ∧
    (swapLocations P env2 (scrub P moves (swapLocations P env1 s).1)).1.currentLocation1 = .str A ∧
    (swapLocations P env2 (scrub P moves (swapLocations P env1 s).1)).1.currentLocation2 = .str B ∧
    (swapLocations P env2 (scrub P moves (swapLocations P env1 s).1)).1.sliderOffsetMinutes
      = some 0 := by
  have r1 := swapLocations_spec P env1 s A B h1 h2 hA0 hB0 hAc hBc oA2 oB1
  have f := scrub_frame P moves (swapLocations P env1 s).1
  have l1 : (scrub P moves (swapLocations P env1 s).1).dom.location1
      = { s.dom.location1 with value := B } := f.2.2.2.2.1.trans r1.1
  have l2 : (scrub P moves (swapLocations P env1 s).1).dom.location2
      = { s.dom.location2 with value := A } := f.2.2.2.2.2.trans r1.2.1
  have r2 := swapLocations_spec P env2 (scrub P moves (swapLocations P env1 s).1) B A
    (by rw [l1]) (by rw [l2]) hB0 hA0 hBc hAc (by rw [l2]; exact oB2) (by rw [l1]; exact oA1)
  refine ⟨by rw [r1.1], by rw [r1.2.1], r1.2.2.1, r1.2.2.2.1, r1.2.2.2.2,
    by rw [r2.1], by rw [r2.2.1], r2.2.2.1, r2.2.2.2.1, r2.2.2.2.2⟩

/-- Witness for C9: Kolkata and New York, with a slider move between the swaps. -/
theorem swapLocations_twice_witness :
    (swapLocations samplePlatform sampleEnv pickedApp).1.dom.location1.value = "America/New_York" ∧
    (swapLocations samplePlatform oneFailingEnv
        (scrub samplePlatform [600]
          (swapLocations samplePlatform sampleEnv pickedApp).1)).1.dom.location1.value
      = "Asia/Kolkata" ∧
    (swapLocations samplePlatform oneFailingEnv
        (scrub samplePlatform [600]
          (swapLocations samplePlatform sampleEnv pickedApp).1)).1.sliderOffsetMinutes = some 0 :=
  have w := swapLocations_twice samplePlatform sampleEnv oneFailingEnv [600] pickedApp
    "Asia/Kolkata" "America/New_York" rfl rfl (by decide) (by decide) (by decide) (by decide)
    (by decide) (by decide) (by decide) (by decide)
  ⟨w.1, w.2.2.2.2.2.1, w.2.2.2.2.2.2.2.2.2⟩

/-! ## The slider reads the zone of the browser -/

/-- In a zone with a fixed offset, moving an instant by `m` minus its own
minutes from midnight lands on minute `m` of the same day. -/
theorem zoneMinutes_shift (c t m : Int) (h0 : 0 ≤ m) (h1 : m < 1440) :
    zoneMinutes (fun _ => c) (t + (m - zoneMinutes (fun _ => c) t) * 60 * 1000) = m := by
  simp only [zoneMinutes, wallClock]
  omega

/-- C5, the code at the failing input: the browser runs in UTC, location A is
Asia/Kolkata and the service reports the epoch.  `fetchAndUpdateTimes` ends
without an error with a slider offset of 0, but the slider is put at 0, the
minutes from midnight in the zone of the browser, while location A is at 05:30,
that is 330 minutes from midnight. -/
theorem fetchAndUpdateTimes_slider_reads_browser_zone :
    (fetchAndUpdateTimes samplePlatform sampleEnv sampleApp).2 = none ∧
    (fetchAndUpdateTimes samplePlatform sampleEnv sampleApp).1.baseDateTime1 = some sampleSnapshot ∧
    (fetchAndUpdateTimes samplePlatform sampleEnv sampleApp).1.sliderOffsetMinutes = some 0 ∧
    (fetchAndUpdateTimes samplePlatform sampleEnv sampleApp).1.dom.timeSlider = some 0 ∧
    (fetchAndUpdateTimes samplePlatform sampleEnv sampleApp).1.dom.clock1.digitalTime
      = some ⟨5, 30, 0⟩ ∧
    ((resolveZone samplePlatform sampleSnapshot.timezone).map fun off => zoneMinutes off 0)
      = some 330 ∧
    (fetchAndUpdateTimes samplePlatform sampleEnv sampleApp).1.dom.timeSlider
      ≠ (resolveZone samplePlatform sampleSnapshot.timezone).map (fun off => zoneMinutes off 0) := by
  decide

/-- C3, the code at the failing input: the browser runs in UTC, snapshot A is
Asia/Kolkata at the epoch, and the slider is moved to 600.  The offset becomes
600 minus 0, the minutes from midnight in the zone of the browser; the adjusted
time of location A is then 15:30 in Kolkata, 930 minutes from midnight, not 600. -/
theorem handleSliderChange_reads_browser_zone :
    tickingApp.baseDateTime1 = some sampleSnapshot ∧
    (handleSliderChange samplePlatform 600 tickingApp).2 = none ∧
    (handleSliderChange samplePlatform 600 tickingApp).1.sliderOffsetMinutes = some 600 ∧
    (getAdjustedTime sampleSnapshot
        (handleSliderChange samplePlatform 600 tickingApp).1.sliderOffsetMinutes).date
      = some 36000000 ∧
    ((resolveZone samplePlatform sampleSnapshot.timezone).map fun off => zoneMinutes off 36000000)
      = some 930 ∧
    ((resolveZone samplePlatform sampleSnapshot.timezone).map fun off => zoneMinutes off 36000000)
      ≠ some 600 ∧
    (handleSliderChange samplePlatform 600 tickingApp).1.sliderOffsetMinutes
      ≠ (resolveZone samplePlatform sampleSnapshot.timezone).map (fun off => 600 - zoneMinutes off 0) ∧
    (handleSliderChange samplePlatform 600 tickingApp).1.dom.clock1.digitalTime
      = some ⟨15, 30, 0⟩ := by
  decide

/-- The offset `handleSliderChange` stores is the slider value minus the minutes
from midnight of snapshot A in the zone of the browser. -/
theorem handleSliderChange_offset (P : Platform) (m : Int) (s : App) (A : Snapshot) (t : Int)
    (hA : s.baseDateTime1 = some A) (ht : newDate A.datetime = some t) :
    (handleSliderChange P m s).1.sliderOffsetMinutes
      = some (m - zoneMinutes P.localOffset t) := by
  unfold handleSliderChange
  simp only [hA, ht]
  rw [(updateDisplay_frame P _).2.2.2.2.1]
  rfl

/-- What the slider handler achieves: when snapshot A holds a valid time `t`,
the zone of the browser has the fixed offset `c` and the adjusted instant is in
the range of `Date`, the adjusted time of snapshot A is at minute `m` of the day
in the zone of the browser (not in the zone of location A). -/
theorem handleSliderChange_roundtrip_browser (P : Platform) (m c : Int) (s : App) (A : Snapshot)
    (t : Int) (hA : s.baseDateTime1 = some A) (ht : newDate A.datetime = some t)
    (hc : P.localOffset = fun _ => c) (h0 : 0 ≤ m) (h1 : m < 1440)
    (hr : -maxTimeValue ≤ t + (m - zoneMinutes (fun _ => c) t) * 60 * 1000 ∧
          t + (m - zoneMinutes (fun _ => c) t) * 60 * 1000 ≤ maxTimeValue) :
    ∃ t2, (getAdjustedTime A (handleSliderChange P m s).1.sliderOffsetMinutes).date = some t2 ∧
      zoneMinutes P.localOffset t2 = m := by
  refine ⟨t + (m - zoneMinutes (fun _ => c) t) * 60 * 1000, ?_, ?_⟩
  · rw [handleSliderChange_offset P m s A t hA ht, hc]
    simp [getAdjustedTime, ht, timeClip, hr]
  · rw [hc]
    exact zoneMinutes_shift c t m h0 h1

/-- A fetched body without a valid `datetime` cannot be rendered: the `catch`
of `fetchAndUpdateTimes` then replaces both snapshots by fallback snapshots. -/
theorem fetchAndUpdateTimes_unrenderable (P : Platform) (env : FetchEnv) (s : App)
    (body : Snapshot) (h1 : env.outcome1 = .response true (some body))
    (hd : newDate body.datetime = none) :
    (fetchAndUpdateTimes P env s).1.baseDateTime1
      = some (getFallbackTimeForZone P s.currentLocation1 env.fallbackClock1) ∧
    (fetchAndUpdateTimes P env s).1.baseDateTime2
      = some (getFallbackTimeForZone P s.currentLocation2 env.fallbackClock2) := by
  unfold fetchAndUpdateTimes
  rw [fetchTimeForZone_eq, fetchTimeForZone_eq, h1]
  dsimp only
  have bad : ∀ s3 s4 : App, updateDisplay P s3 = (s4, none) → s3.baseDateTime1 = some body →
      (∃ b2, s3.baseDateTime2 = some b2) → s3.sliderOffsetMinutes = some 0 → False := by
    intro s3 s4 h4 e1 ⟨b2, e2⟩ e3
    have h5 : (updateDisplay P s3).2 = none := by rw [h4]
    revert h5
    unfold updateDisplay
    simp only [e1, e2, e3]
    have hdate : (getAdjustedTime body (some 0)).date = none := by
      simp [getAdjustedTime, hd]
    unfold updateTimeDisplay
    rw [hdate]
    split
    · rename_i h; split at h <;> simp_all
    · rename_i h; split at h <;> simp_all
  split
  · rename_i s4 h4
    exact absurd (bad _ _ h4 rfl ⟨_, rfl⟩ rfl) id
  · rename_i s4 e h4
    have f := updateDisplay_frame_of P _ _ _ h4
    have g := useFallbackTime_frame P env.fallbackClock1 env.fallbackClock2 s4
    rw [g.2.2.1, g.2.2.2, f.1, f.2.1]
    exact ⟨rfl, rfl⟩

end TimeConverter
